import Mathlib

/-!
# Verification of the `bfb-ai` rule-based alerting engine (`src/rules.py`)

Shallow embedding of the rule engine. Modelling conventions:

* Instants are integers counting whole hours since an arbitrary epoch.  A
  timestamp string is parseable exactly when it is a decimal integer literal
  (`String.toInt?`); this models the partiality of `datetime.fromisoformat`,
  which raises on malformed input.  `timedelta(hours=h)` is the integer `h`,
  and `datetime.hour` is `t % 24`.
* Python's `defaultdict` accumulators are modelled as insertion-ordered
  association lists (`List (String × β)`): updating an existing key updates it
  in place, a fresh key is appended at the end, matching `dict` iteration
  order over `.items()`.
* Every rule of the source reads "now" by calling `datetime.utcnow()`; the
  embedding passes the reference instant explicitly.  `run_all_rules` threads
  a single instant through every rule; `run_all_rules_clock` gives each of
  the fourteen rules its own instant `nows i` (the coarsest model in which
  the source's independent per-rule time capture is visible).
* A rule that parses a timestamp can fail; fallible code returns
  `Except String`.  Each fallible rule has a pure variant (suffix `P`) used
  under the hypothesis that every relevant timestamp parses.
-/

deriving instance DecidableEq for Except

namespace BFB

structure Signal where
  village : String
  severity : String
  symptoms : List String
  timestamp : String
deriving Repr, DecidableEq

structure Alert where
  rule : String
  level : String
  village : String
  reason : String
deriving Repr, DecidableEq

/-- `SEVERITY_WEIGHTS = {"low": 1, "medium": 2, "high": 3}` -/
def SEVERITY_WEIGHTS : List (String × Nat) := [("low", 1), ("medium", 2), ("high", 3)]

/-- `SEVERITY_WEIGHTS.get(sev, 0)`: dictionary lookup with default 0. -/
def weightOf (sev : String) : Nat :=
  match SEVERITY_WEIGHTS.lookup sev with
  | some w => w
  | none => 0

/-- Decimal digit value of a character, `none` for a non-digit. -/
def digit? (c : Char) : Option Nat :=
  if 48 ≤ c.toNat ∧ c.toNat ≤ 57 then some (c.toNat - 48) else none

/-- Value of a nonempty all-digit character list, `none` otherwise. -/
def digitsVal (cs : List Char) : Option Nat :=
  match cs with
  | [] => none
  | _ =>
    cs.foldl (fun acc c =>
      match acc, digit? c with
      | some n, some d => some (10 * n + d)
      | _, _ => none) (some 0)

/-- `parse_time(ts) = datetime.fromisoformat(ts)`; `none` models the raised
`ValueError` on malformed input.  A timestamp string is parseable exactly when
it is a decimal integer literal (an optional sign followed by digits). -/
def parse_time (ts : String) : Option Int :=
  match ts.data with
  | '-' :: rest => (digitsVal rest).map (fun n => -(n : Int))
  | cs => (digitsVal cs).map (fun n => (n : Int))

/-- `within_hours(ts, hours)` relative to an explicit reference instant:
`parse_time(ts) >= now - timedelta(hours=hours)`; propagates a parse failure. -/
def within_hours (now : Int) (ts : String) (hours : Int) : Except String Bool :=
  match parse_time ts with
  | some t => .ok (decide (now - hours ≤ t))
  | none => .error ("unparseable timestamp: " ++ ts)

/-- Pure variant of `within_hours`; unparseable timestamps count as outside
every window (only used where parsing is known to succeed). -/
def withinP (now : Int) (ts : String) (hours : Int) : Bool :=
  match parse_time ts with
  | some t => decide (now - hours ≤ t)
  | none => false

/-! ## `defaultdict` accumulators -/

/-- `m[k] = add m[k] d`, where a missing key is freshly inserted (at the end,
matching `dict` insertion order) with value `d`. -/
def bumpG {β : Type} (add : β → β → β) (m : List (String × β)) (k : String) (d : β) :
    List (String × β) :=
  match m with
  | [] => [(k, d)]
  | (k', v) :: rest => if k = k' then (k', add v d) :: rest else (k', v) :: bumpG add rest k d

/-- Dictionary lookup with an explicit default. -/
def lookupG {β : Type} (z : β) (m : List (String × β)) (k : String) : β :=
  match m with
  | [] => z
  | (k', v) :: rest => if k = k' then v else lookupG z rest k

def keysG {β : Type} (m : List (String × β)) : List String := m.map Prod.fst

/-- One iteration of the accumulation loop: `x` either bumps its key or is
skipped. -/
def tallyStep {α β : Type} (add : β → β → β) (key : α → String) (contrib : α → Option β)
    (m : List (String × β)) (x : α) : List (String × β) :=
  match contrib x with
  | some d => bumpG add m (key x) d
  | none => m

/-- The `for s in signals:` accumulation loop shared by the counting rules:
`contrib x` says whether `x` contributes and with which delta. -/
def tallyG {α β : Type} (add : β → β → β) (key : α → String) (contrib : α → Option β)
    (l : List α) : List (String × β) :=
  l.foldl (tallyStep add key contrib) []

/-- Fallible version of `tallyG` over signals: a contribution may abort the
whole loop (a raised `ValueError` from `datetime.fromisoformat`). -/
def tallyMG {β : Type} (add : β → β → β) (contrib : Signal → Except String (Option β))
    (signals : List Signal) : Except String (List (String × β)) :=
  signals.foldlM (fun m s => do
    match (← contrib s) with
    | some d => pure (bumpG add m s.village d)
    | none => pure m) []

/-- The `for v, c in counts.items(): if pass(c): alerts.append(...)` loop. -/
def emitAlerts {β : Type} (rule lv : String) (reasonOf : β → String) (pass : β → Bool)
    (m : List (String × β)) : List Alert :=
  m.filterMap (fun p => if pass p.2 then some ⟨rule, lv, p.1, reasonOf p.2⟩ else none)

def pairAdd (a b : Nat × Nat) : Nat × Nat := (a.1 + b.1, a.2 + b.2)

/-- `set.add` on a village's set of hour-of-day values, modelled as a
duplicate-free list: append the elements of `d` not already present. -/
def hourUnion (hs d : List Int) : List Int :=
  hs ++ d.filter (fun h => decide (h ∉ hs))

/-! ## Rule family A — severity based -/

def a1contribM (now : Int) (s : Signal) : Except String (Option Nat) :=
  if s.severity = "high" then
    (within_hours now s.timestamp 24).map (fun b => if b then some 1 else none)
  else .ok none

def a1contribP (now : Int) (s : Signal) : Option Nat :=
  if s.severity = "high" then
    (if withinP now s.timestamp 24 then some 1 else none)
  else none

def a1reason (c : Nat) : String := toString c ++ " high severity reports in 24h"

def rule_A1_high_severity_cluster (now : Int) (signals : List Signal) :
    Except String (List Alert) :=
  (tallyMG Nat.add (a1contribM now) signals).map
    (emitAlerts "A1_HIGH_SEVERITY_CLUSTER" "HIGH" a1reason (fun c => decide (3 ≤ c)))

def rule_A1P (now : Int) (signals : List Signal) : List Alert :=
  emitAlerts "A1_HIGH_SEVERITY_CLUSTER" "HIGH" a1reason (fun c => decide (3 ≤ c))
    (tallyG Nat.add Signal.village (a1contribP now) signals)

def a2contribM (now : Int) (s : Signal) : Except String (Option (Nat × Nat)) :=
  (within_hours now s.timestamp 24).map (fun b =>
    if b then
      if s.severity = "high" then some (1, 0)
      else if s.severity = "medium" then some (0, 1)
      else none
    else none)

def a2contribP (now : Int) (s : Signal) : Option (Nat × Nat) :=
  if withinP now s.timestamp 24 then
    if s.severity = "high" then some (1, 0)
    else if s.severity = "medium" then some (0, 1)
    else none
  else none

def a2pass (c : Nat × Nat) : Bool := decide (2 ≤ c.1) || (decide (1 ≤ c.1) && decide (2 ≤ c.2))

def rule_A2_mixed_severity (now : Int) (signals : List Signal) : Except String (List Alert) :=
  (tallyMG pairAdd (a2contribM now) signals).map
    (emitAlerts "A2_MIXED_SEVERITY" "HIGH" (fun _ => "Mixed high and medium severity spike") a2pass)

def rule_A2P (now : Int) (signals : List Signal) : List Alert :=
  emitAlerts "A2_MIXED_SEVERITY" "HIGH" (fun _ => "Mixed high and medium severity spike") a2pass
    (tallyG pairAdd Signal.village (a2contribP now) signals)

def a3contribM (now : Int) (s : Signal) : Except String (Option Nat) :=
  if s.severity = "medium" then
    (within_hours now s.timestamp 48).map (fun b => if b then some 1 else none)
  else .ok none

def a3contribP (now : Int) (s : Signal) : Option Nat :=
  if s.severity = "medium" then
    (if withinP now s.timestamp 48 then some 1 else none)
  else none

def a3reason (c : Nat) : String := toString c ++ " medium severity reports in 48h"

def rule_A3_repeated_medium (now : Int) (signals : List Signal) : Except String (List Alert) :=
  (tallyMG Nat.add (a3contribM now) signals).map
    (emitAlerts "A3_REPEATED_MEDIUM" "MEDIUM" a3reason (fun c => decide (5 ≤ c)))

def rule_A3P (now : Int) (signals : List Signal) : List Alert :=
  emitAlerts "A3_REPEATED_MEDIUM" "MEDIUM" a3reason (fun c => decide (5 ≤ c))
    (tallyG Nat.add Signal.village (a3contribP now) signals)

/-! ## Rule family B — volume based (B2 and B3 count the same 48h window) -/

def volContribM (hours : Int) (now : Int) (s : Signal) : Except String (Option Nat) :=
  (within_hours now s.timestamp hours).map (fun b => if b then some 1 else none)

def volContribP (hours : Int) (now : Int) (s : Signal) : Option Nat :=
  if withinP now s.timestamp hours then some 1 else none

def rule_B1_volume_24h (now : Int) (signals : List Signal) : Except String (List Alert) :=
  (tallyMG Nat.add (volContribM 24 now) signals).map
    (emitAlerts "B1_VOLUME_24H" "MEDIUM" (fun c => toString c ++ " reports in 24h")
      (fun c => decide (5 ≤ c)))

def rule_B1P (now : Int) (signals : List Signal) : List Alert :=
  emitAlerts "B1_VOLUME_24H" "MEDIUM" (fun c => toString c ++ " reports in 24h")
    (fun c => decide (5 ≤ c)) (tallyG Nat.add Signal.village (volContribP 24 now) signals)

def rule_B2_volume_48h (now : Int) (signals : List Signal) : Except String (List Alert) :=
  (tallyMG Nat.add (volContribM 48 now) signals).map
    (emitAlerts "B2_VOLUME_48H" "HIGH" (fun c => toString c ++ " reports in 48h")
      (fun c => decide (5 ≤ c)))

def rule_B2P (now : Int) (signals : List Signal) : List Alert :=
  emitAlerts "B2_VOLUME_48H" "HIGH" (fun c => toString c ++ " reports in 48h")
    (fun c => decide (5 ≤ c)) (tallyG Nat.add Signal.village (volContribP 48 now) signals)

def rule_B3_extreme_volume (now : Int) (signals : List Signal) : Except String (List Alert) :=
  (tallyMG Nat.add (volContribM 48 now) signals).map
    (emitAlerts "B3_EXTREME_VOLUME" "CRITICAL" (fun c => toString c ++ " reports in 48h")
      (fun c => decide (10 ≤ c)))

def rule_B3P (now : Int) (signals : List Signal) : List Alert :=
  emitAlerts "B3_EXTREME_VOLUME" "CRITICAL" (fun c => toString c ++ " reports in 48h")
    (fun c => decide (10 ≤ c)) (tallyG Nat.add Signal.village (volContribP 48 now) signals)

/-! ## Rule family C — symptom patterns -/

/-- C1 parses no timestamp, so it is total: one alert per qualifying signal. -/
def rule_C1_symptom_diversity (signals : List Signal) : List Alert :=
  signals.filterMap (fun s =>
    if 3 ≤ s.symptoms.dedup.length then
      some ⟨"C1_SYMPTOM_DIVERSITY", "MEDIUM", s.village, "Single report has 3+ symptoms"⟩
    else none)

def c2contribM (now : Int) (s : Signal) : Except String (Option Nat) :=
  (within_hours now s.timestamp 24).map (fun b =>
    if b && decide ("fever" ∈ s.symptoms) && decide ("loose motion" ∈ s.symptoms) then some 1
    else none)

def c2contribP (now : Int) (s : Signal) : Option Nat :=
  if withinP now s.timestamp 24 && decide ("fever" ∈ s.symptoms)
      && decide ("loose motion" ∈ s.symptoms) then some 1
  else none

def rule_C2_fever_loose_motion (now : Int) (signals : List Signal) : Except String (List Alert) :=
  (tallyMG Nat.add (c2contribM now) signals).map
    (emitAlerts "C2_FEVER_LOOSE_MOTION" "HIGH" (fun _ => "Fever + loose motion cluster")
      (fun c => decide (3 ≤ c)))

def rule_C2P (now : Int) (signals : List Signal) : List Alert :=
  emitAlerts "C2_FEVER_LOOSE_MOTION" "HIGH" (fun _ => "Fever + loose motion cluster")
    (fun c => decide (3 ≤ c)) (tallyG Nat.add Signal.village (c2contribP now) signals)

def c3contribM (now : Int) (s : Signal) : Except String (Option Nat) :=
  (within_hours now s.timestamp 24).map (fun b =>
    if b && decide ("weakness" ∈ s.symptoms) then some 1 else none)

def c3contribP (now : Int) (s : Signal) : Option Nat :=
  if withinP now s.timestamp 24 && decide ("weakness" ∈ s.symptoms) then some 1 else none

def rule_C3_weakness_dominant (now : Int) (signals : List Signal) : Except String (List Alert) :=
  (tallyMG Nat.add (c3contribM now) signals).map
    (emitAlerts "C3_WEAKNESS_DOMINANT" "MEDIUM" (fun _ => "Weakness reported frequently")
      (fun c => decide (4 ≤ c)))

def rule_C3P (now : Int) (signals : List Signal) : List Alert :=
  emitAlerts "C3_WEAKNESS_DOMINANT" "MEDIUM" (fun _ => "Weakness reported frequently")
    (fun c => decide (4 ≤ c)) (tallyG Nat.add Signal.village (c3contribP now) signals)

/-! ## Rule family D — trend based -/

/-- D1 buckets a village's counts as `(prev, curr)`; the `elif` branch keeps
the redundant upper bound of the source. -/
def d1contribM (now : Int) (s : Signal) : Except String (Option (Nat × Nat)) :=
  match parse_time s.timestamp with
  | none => .error ("unparseable timestamp: " ++ s.timestamp)
  | some t =>
    .ok (if now - 12 ≤ t then some (0, 1)
      else if now - 24 ≤ t ∧ t < now - 12 then some (1, 0)
      else none)

def d1contribP (now : Int) (s : Signal) : Option (Nat × Nat) :=
  match parse_time s.timestamp with
  | none => none
  | some t =>
    if now - 12 ≤ t then some (0, 1)
    else if now - 24 ≤ t ∧ t < now - 12 then some (1, 0)
    else none

def d1pass (c : Nat × Nat) : Bool := decide (c.1 < c.2) && decide (3 ≤ c.2)

def rule_D1_rising_trend (now : Int) (signals : List Signal) : Except String (List Alert) :=
  (tallyMG pairAdd (d1contribM now) signals).map
    (emitAlerts "D1_RISING_TREND" "MEDIUM" (fun _ => "Rising report trend") d1pass)

def rule_D1P (now : Int) (signals : List Signal) : List Alert :=
  emitAlerts "D1_RISING_TREND" "MEDIUM" (fun _ => "Rising report trend") d1pass
    (tallyG pairAdd Signal.village (d1contribP now) signals)

/-- D2 collects `ts.hour` (here `t % 24`) into a per-village set. -/
def d2contribM (now : Int) (s : Signal) : Except String (Option (List Int)) :=
  match parse_time s.timestamp with
  | none => .error ("unparseable timestamp: " ++ s.timestamp)
  | some t => .ok (if now - 24 ≤ t then some [t % 24] else none)

def d2contribP (now : Int) (s : Signal) : Option (List Int) :=
  match parse_time s.timestamp with
  | none => none
  | some t => if now - 24 ≤ t then some [t % 24] else none

def rule_D2_continuous_reporting (now : Int) (signals : List Signal) :
    Except String (List Alert) :=
  (tallyMG hourUnion (d2contribM now) signals).map
    (emitAlerts "D2_CONTINUOUS_REPORTING" "MEDIUM" (fun _ => "Reports coming continuously")
      (fun hs => decide (4 ≤ hs.length)))

def rule_D2P (now : Int) (signals : List Signal) : List Alert :=
  emitAlerts "D2_CONTINUOUS_REPORTING" "MEDIUM" (fun _ => "Reports coming continuously")
    (fun hs => decide (4 ≤ hs.length))
    (tallyG hourUnion Signal.village (d2contribP now) signals)

def d3contribM (now : Int) (s : Signal) : Except String (Option Nat) :=
  (within_hours now s.timestamp 72).map (fun b =>
    if b then
      if s.severity = "low" ∨ s.severity = "medium" then some 1 else none
    else none)

def d3contribP (now : Int) (s : Signal) : Option Nat :=
  if withinP now s.timestamp 72 then
    if s.severity = "low" ∨ s.severity = "medium" then some 1 else none
  else none

def rule_D3_long_tail (now : Int) (signals : List Signal) : Except String (List Alert) :=
  (tallyMG Nat.add (d3contribM now) signals).map
    (emitAlerts "D3_LONG_TAIL" "MEDIUM" (fun _ => "Persistent low/medium reports")
      (fun c => decide (10 ≤ c)))

def rule_D3P (now : Int) (signals : List Signal) : List Alert :=
  emitAlerts "D3_LONG_TAIL" "MEDIUM" (fun _ => "Persistent low/medium reports")
    (fun c => decide (10 ≤ c)) (tallyG Nat.add Signal.village (d3contribP now) signals)

/-! ## Rule family E — weighted score -/

def e1contribM (now : Int) (s : Signal) : Except String (Option Nat) :=
  (within_hours now s.timestamp 24).map (fun b =>
    if b then some (weightOf s.severity) else none)

def e1contribP (now : Int) (s : Signal) : Option Nat :=
  if withinP now s.timestamp 24 then some (weightOf s.severity) else none

def e1reason (c : Nat) : String := "Severity score " ++ toString c ++ " in 24h"

/-- The per-village weighted-score dictionary built by E1. -/
def e1scores (now : Int) (signals : List Signal) : List (String × Nat) :=
  tallyG Nat.add Signal.village (e1contribP now) signals

/-- E1's per-village score (0 for a village never touched by the loop). -/
def e1score (now : Int) (signals : List Signal) (v : String) : Nat :=
  lookupG 0 (e1scores now signals) v

def rule_E1_weighted_score (now : Int) (signals : List Signal) : Except String (List Alert) :=
  (tallyMG Nat.add (e1contribM now) signals).map
    (emitAlerts "E1_WEIGHTED_SCORE" "HIGH" e1reason (fun c => decide (10 ≤ c)))

def rule_E1P (now : Int) (signals : List Signal) : List Alert :=
  emitAlerts "E1_WEIGHTED_SCORE" "HIGH" e1reason (fun c => decide (10 ≤ c)) (e1scores now signals)

/-- E2 buckets a village's weighted sums as `(prev, curr)`.  The source
compares `curr >= 1.5 * prev` on integer-valued scores, which is the exact
rational comparison `2 * curr ≥ 3 * prev`. -/
def e2contribM (now : Int) (s : Signal) : Except String (Option (Nat × Nat)) :=
  match parse_time s.timestamp with
  | none => .error ("unparseable timestamp: " ++ s.timestamp)
  | some t =>
    .ok (if now - 24 ≤ t then some (0, weightOf s.severity)
      else if now - 48 ≤ t ∧ t < now - 24 then some (weightOf s.severity, 0)
      else none)

def e2contribP (now : Int) (s : Signal) : Option (Nat × Nat) :=
  match parse_time s.timestamp with
  | none => none
  | some t =>
    if now - 24 ≤ t then some (0, weightOf s.severity)
    else if now - 48 ≤ t ∧ t < now - 24 then some (weightOf s.severity, 0)
    else none

def e2pass (c : Nat × Nat) : Bool := decide (0 < c.1) && decide (3 * c.1 ≤ 2 * c.2)

/-- The per-village `(prev, curr)` weighted-score dictionary built by E2. -/
def e2scores (now : Int) (signals : List Signal) : List (String × (Nat × Nat)) :=
  tallyG pairAdd Signal.village (e2contribP now) signals

/-- E2's per-village `(prev, curr)` pair (`(0, 0)` for an untouched village). -/
def e2score (now : Int) (signals : List Signal) (v : String) : Nat × Nat :=
  lookupG (0, 0) (e2scores now signals) v

def rule_E2_score_growth (now : Int) (signals : List Signal) : Except String (List Alert) :=
  (tallyMG pairAdd (e2contribM now) signals).map
    (emitAlerts "E2_SCORE_GROWTH" "MEDIUM" (fun _ => "Severity score rising rapidly") e2pass)

def rule_E2P (now : Int) (signals : List Signal) : List Alert :=
  emitAlerts "E2_SCORE_GROWTH" "MEDIUM" (fun _ => "Severity score rising rapidly") e2pass
    (e2scores now signals)

/-! ## Rule F — escalation pass -/

/-- Number of candidate alerts per village, as computed by `rule_F1_multi_rule`. -/
def villageCounts (alerts : List Alert) : List (String × Nat) :=
  tallyG Nat.add Alert.village (fun _ => some 1) alerts

/-- The in-place upgrade the escalation pass applies to a kept candidate. -/
def escalate (a : Alert) : Alert :=
  { a with level := "HIGH", reason := a.reason ++ " (multiple rules triggered)" }

def rule_F1_multi_rule (alerts : List Alert) : List Alert :=
  alerts.filterMap (fun a =>
    if 2 ≤ lookupG 0 (villageCounts alerts) a.village then some (escalate a) else none)

/-! ## Orchestration -/

/-- The concatenated candidate list built by `run_all_rules` before the
escalation pass, with each rule `i` evaluating "now" as `nows i` (the source
re-reads the clock inside every rule). -/
def candidatesClock (nows : Nat → Int) (signals : List Signal) : Except String (List Alert) := do
  let a1 ← rule_A1_high_severity_cluster (nows 0) signals
  let a2 ← rule_A2_mixed_severity (nows 1) signals
  let a3 ← rule_A3_repeated_medium (nows 2) signals
  let b1 ← rule_B1_volume_24h (nows 3) signals
  let b2 ← rule_B2_volume_48h (nows 4) signals
  let b3 ← rule_B3_extreme_volume (nows 5) signals
  let c1 := rule_C1_symptom_diversity signals
  let c2 ← rule_C2_fever_loose_motion (nows 7) signals
  let c3 ← rule_C3_weakness_dominant (nows 8) signals
  let d1 ← rule_D1_rising_trend (nows 9) signals
  let d2 ← rule_D2_continuous_reporting (nows 10) signals
  let d3 ← rule_D3_long_tail (nows 11) signals
  let e1 ← rule_E1_weighted_score (nows 12) signals
  let e2 ← rule_E2_score_growth (nows 13) signals
  pure (a1 ++ a2 ++ a3 ++ b1 ++ b2 ++ b3 ++ c1 ++ c2 ++ c3 ++ d1 ++ d2 ++ d3 ++ e1 ++ e2)

/-- `run_all_rules` with per-rule clock readings. -/
def run_all_rules_clock (nows : Nat → Int) (signals : List Signal) :
    Except String (List Alert) := do
  let alerts ← candidatesClock nows signals
  pure (rule_F1_multi_rule alerts)

/-- Candidate list when every clock reading returns the same instant. -/
def candidatesM (now : Int) (signals : List Signal) : Except String (List Alert) :=
  candidatesClock (fun _ => now) signals

/-- `run_all_rules(signals)` at a fixed reference instant `now`. -/
def run_all_rules (now : Int) (signals : List Signal) : Except String (List Alert) := do
  let alerts ← candidatesM now signals
  pure (rule_F1_multi_rule alerts)

/-- Pure candidate list, valid when every timestamp parses. -/
def candidatesP (now : Int) (signals : List Signal) : List Alert :=
  rule_A1P now signals ++ rule_A2P now signals ++ rule_A3P now signals ++
  rule_B1P now signals ++ rule_B2P now signals ++ rule_B3P now signals ++
  rule_C1_symptom_diversity signals ++ rule_C2P now signals ++ rule_C3P now signals ++
  rule_D1P now signals ++ rule_D2P now signals ++ rule_D3P now signals ++
  rule_E1P now signals ++ rule_E2P now signals

/-- Pure final output, valid when every timestamp parses. -/
def run_all_rulesP (now : Int) (signals : List Signal) : List Alert :=
  rule_F1_multi_rule (candidatesP now signals)

/-- Every timestamp in the batch parses. -/
def allParse (signals : List Signal) : Bool :=
  signals.all (fun s => (parse_time s.timestamp).isSome)

/-! ## Counts used to state the per-rule properties -/

/-- Number of `severity = "high"` signals of village `v` inside the 24h window
(the count driving rule A1). -/
def countHigh24 (now : Int) (signals : List Signal) (v : String) : Nat :=
  (signals.filter (fun s =>
    decide (s.village = v) && (decide (s.severity = "high") && withinP now s.timestamp 24))).length

/-- Number of signals of village `v`, any severity, inside the 48h window
(the count shared by rules B2 and B3). -/
def count48 (now : Int) (signals : List Signal) (v : String) : Nat :=
  (signals.filter (fun s => decide (s.village = v) && withinP now s.timestamp 48)).length

/-- Number of signals of village `v`, any severity, inside the 24h window
(the count driving rule B1). -/
def count24 (now : Int) (signals : List Signal) (v : String) : Nat :=
  (signals.filter (fun s => decide (s.village = v) && withinP now s.timestamp 24)).length

/-- Number of candidate alerts carrying village `v`. -/
def countVillage (alerts : List Alert) (v : String) : Nat :=
  (alerts.filter (fun a => decide (a.village = v))).length

/-! ## Association-list lemmas -/

theorem lookupG_bumpG {β : Type} {add : β → β → β} {z : β} (hz : ∀ d, add z d = d)
    (m : List (String × β)) (k : String) (d : β) (j : String) :
    lookupG z (bumpG add m k d) j =
      if j = k then add (lookupG z m j) d else lookupG z m j := by
  induction m with
  | nil =>
    by_cases h : j = k <;> simp [bumpG, lookupG, h, hz]
  | cons p rest ih =>
    obtain ⟨k', v⟩ := p
    by_cases hk : k = k'
    · subst hk
      by_cases hj : j = k <;> simp [bumpG, lookupG, hj]
    · by_cases hj : j = k'
      · subst hj
        have hjk : ¬j = k := fun h => hk (h ▸ rfl)
        simp [bumpG, lookupG, hk, hjk]
      · simp [bumpG, lookupG, hk, hj, ih]

theorem mem_keysG_bumpG {β : Type} (add : β → β → β) (m : List (String × β))
    (k : String) (d : β) (j : String) :
    j ∈ keysG (bumpG add m k d) ↔ j ∈ keysG m ∨ j = k := by
  induction m with
  | nil => simp [bumpG, keysG]
  | cons p rest ih =>
    obtain ⟨k', v⟩ := p
    by_cases hk : k = k'
    · subst hk
      by_cases hj : j = k <;> simp [bumpG, keysG, hj]
    · simp [bumpG, keysG, hk] at ih ⊢
      tauto

theorem keysG_nodup_bumpG {β : Type} (add : β → β → β) (m : List (String × β))
    (k : String) (d : β) (h : (keysG m).Nodup) : (keysG (bumpG add m k d)).Nodup := by
  induction m with
  | nil => simp [bumpG, keysG]
  | cons p rest ih =>
    obtain ⟨k', v⟩ := p
    simp only [keysG, List.map_cons, List.nodup_cons] at h
    by_cases hk : k = k'
    · subst hk
      simpa [bumpG, keysG, List.nodup_cons] using h
    · simp only [bumpG, if_neg hk, keysG, List.map_cons, List.nodup_cons]
      refine ⟨?_, ih h.2⟩
      intro hmem
      rcases (mem_keysG_bumpG add rest k d k').1 hmem with h1 | h1
      · exact h.1 h1
      · exact hk (h1 ▸ rfl)

theorem lookupG_eq_of_mem {β : Type} (z : β) (m : List (String × β)) (v : String) (c : β)
    (hnd : (keysG m).Nodup) (hm : (v, c) ∈ m) : lookupG z m v = c := by
  induction m with
  | nil => simp at hm
  | cons p rest ih =>
    obtain ⟨k', w⟩ := p
    simp only [keysG, List.map_cons, List.nodup_cons] at hnd
    rcases List.mem_cons.1 hm with h1 | h1
    · injection h1 with hl hr
      simp [lookupG, hl.symm, hr]
    · have hv : v ∈ keysG rest := by
        simp only [keysG, List.mem_map]
        exact ⟨(v, c), h1, rfl⟩
      have : ¬v = k' := fun h => hnd.1 (h ▸ hv)
      simp [lookupG, this, ih hnd.2 h1]

theorem mem_of_mem_keysG {β : Type} (z : β) (m : List (String × β)) (v : String)
    (h : v ∈ keysG m) : (v, lookupG z m v) ∈ m := by
  induction m with
  | nil => simp [keysG] at h
  | cons p rest ih =>
    obtain ⟨k', w⟩ := p
    by_cases hv : v = k'
    · subst hv
      simp [lookupG]
    · simp only [keysG, List.map_cons, List.mem_cons] at h
      rcases h with h | h
      · exact absurd h hv
      · simp only [lookupG, if_neg hv]
        exact List.mem_cons_of_mem _ (ih h)

theorem mem_keysG_of_mem {β : Type} {m : List (String × β)} {v : String} {c : β}
    (h : (v, c) ∈ m) : v ∈ keysG m := by
  simp only [keysG, List.mem_map]
  exact ⟨(v, c), h, rfl⟩

/-! ## Tally lemmas -/

theorem mem_keysG_foldl {α β : Type} (add : β → β → β) (key : α → String)
    (contrib : α → Option β) (l : List α) (m : List (String × β)) (v : String) :
    v ∈ keysG (l.foldl (tallyStep add key contrib) m) ↔
      v ∈ keysG m ∨ ∃ x ∈ l, key x = v ∧ (contrib x).isSome := by
  induction l generalizing m with
  | nil => simp
  | cons x t ih =>
    simp only [List.foldl_cons, ih, List.mem_cons]
    cases hcx : contrib x with
    | none =>
      simp only [tallyStep, hcx]
      constructor
      · rintro (h | ⟨y, hy, hk, hs⟩)
        · exact Or.inl h
        · exact Or.inr ⟨y, Or.inr hy, hk, hs⟩
      · rintro (h | ⟨y, hy | hy, hk, hs⟩)
        · exact Or.inl h
        · subst hy
          rw [hcx] at hs
          simp at hs
        · exact Or.inr ⟨y, hy, hk, hs⟩
    | some d =>
      simp only [tallyStep, hcx, mem_keysG_bumpG]
      constructor
      · rintro ((h | h) | ⟨y, hy, hk, hs⟩)
        · exact Or.inl h
        · exact Or.inr ⟨x, Or.inl rfl, h.symm, by simp [hcx]⟩
        · exact Or.inr ⟨y, Or.inr hy, hk, hs⟩
      · rintro (h | ⟨y, hy | hy, hk, hs⟩)
        · exact Or.inl (Or.inl h)
        · subst hy
          exact Or.inl (Or.inr hk.symm)
        · exact Or.inr ⟨y, hy, hk, hs⟩

theorem mem_keysG_tallyG {α β : Type} (add : β → β → β) (key : α → String)
    (contrib : α → Option β) (l : List α) (v : String) :
    v ∈ keysG (tallyG add key contrib l) ↔ ∃ x ∈ l, key x = v ∧ (contrib x).isSome := by
  simpa [keysG] using mem_keysG_foldl add key contrib l [] v

theorem keysG_nodup_foldl {α β : Type} (add : β → β → β) (key : α → String)
    (contrib : α → Option β) (l : List α) (m : List (String × β))
    (h : (keysG m).Nodup) : (keysG (l.foldl (tallyStep add key contrib) m)).Nodup := by
  induction l generalizing m with
  | nil => exact h
  | cons x t ih =>
    simp only [List.foldl_cons]
    apply ih
    cases hcx : contrib x with
    | none => simpa [tallyStep, hcx] using h
    | some d =>
      simp only [tallyStep, hcx]
      exact keysG_nodup_bumpG add m (key x) d h

theorem keysG_nodup_tallyG {α β : Type} (add : β → β → β) (key : α → String)
    (contrib : α → Option β) (l : List α) : (keysG (tallyG add key contrib l)).Nodup := by
  apply keysG_nodup_foldl
  simp [keysG]

theorem nat_add_zero_left : ∀ d : Nat, Nat.add 0 d = d := fun d => Nat.zero_add d

theorem nat_add_zero_right : ∀ d : Nat, Nat.add d 0 = d := fun _ => rfl

theorem pairAdd_zero_left : ∀ d : Nat × Nat, pairAdd (0, 0) d = d := by
  rintro ⟨a, b⟩
  simp [pairAdd]

theorem pairAdd_zero_right : ∀ d : Nat × Nat, pairAdd d (0, 0) = d := by
  rintro ⟨a, b⟩
  simp [pairAdd]

theorem lookupG_foldl_add {α : Type} (key : α → String) (contrib : α → Option Nat)
    (l : List α) (m : List (String × Nat)) (v : String) :
    lookupG 0 (l.foldl (tallyStep Nat.add key contrib) m) v =
      lookupG 0 m v + (l.map (fun x => if key x = v then (contrib x).getD 0 else 0)).sum := by
  induction l generalizing m with
  | nil => simp
  | cons x t ih =>
    simp only [List.foldl_cons, ih, List.map_cons, List.sum_cons]
    cases hcx : contrib x with
    | none => simp [tallyStep, hcx]
    | some d =>
      simp only [tallyStep, hcx]
      rw [lookupG_bumpG nat_add_zero_left]
      by_cases hv : v = key x
      · simp only [if_pos hv, if_pos hv.symm, hcx, Option.getD_some, Nat.add_eq]
        omega
      · have : ¬key x = v := fun h => hv h.symm
        simp only [if_neg hv, if_neg this]
        omega

theorem lookupG_tallyG_add {α : Type} (key : α → String) (contrib : α → Option Nat)
    (l : List α) (v : String) :
    lookupG 0 (tallyG Nat.add key contrib l) v =
      (l.map (fun x => if key x = v then (contrib x).getD 0 else 0)).sum := by
  simpa [lookupG] using lookupG_foldl_add key contrib l [] v

/-- A tally whose contributions are `1` for signals passing a boolean test
counts exactly the matching list elements. -/
theorem lookupG_tallyG_count {α : Type} (key : α → String) (contrib : α → Option Nat)
    (q : α → Bool) (hc : ∀ x, contrib x = if q x then some 1 else none)
    (l : List α) (v : String) :
    lookupG 0 (tallyG Nat.add key contrib l) v =
      (l.filter (fun x => decide (key x = v) && q x)).length := by
  rw [lookupG_tallyG_add]
  induction l with
  | nil => simp
  | cons x t ih =>
    simp only [List.map_cons, List.sum_cons, List.filter_cons, ih]
    by_cases hk : key x = v <;> by_cases hq : q x = true <;>
      simp [hk, hq, hc x] <;> omega

theorem lookupG_foldl_congr {α β : Type} {add : β → β → β} {z : β}
    (hz : ∀ d, add z d = d) (key : α → String) (contrib : α → Option β) (l : List α)
    (m₁ m₂ : List (String × β)) (h : ∀ j, lookupG z m₁ j = lookupG z m₂ j) (j : String) :
    lookupG z (l.foldl (tallyStep add key contrib) m₁) j =
      lookupG z (l.foldl (tallyStep add key contrib) m₂) j := by
  induction l generalizing m₁ m₂ with
  | nil => exact h j
  | cons x t ih =>
    simp only [List.foldl_cons]
    refine ih _ _ (fun j' => ?_)
    cases hcx : contrib x with
    | none => simpa [tallyStep, hcx] using h j'
    | some d =>
      simp only [tallyStep, hcx]
      rw [lookupG_bumpG hz, lookupG_bumpG hz, h j']

/-- Inserting a zero contribution leaves every dictionary value unchanged
(even though it may create a fresh key). -/
theorem lookupG_bumpG_zero {β : Type} {add : β → β → β} {z : β}
    (hz : ∀ d, add z d = d) (hzr : ∀ x, add x z = x) (m : List (String × β))
    (k j : String) : lookupG z (bumpG add m k z) j = lookupG z m j := by
  rw [lookupG_bumpG hz]
  by_cases hj : j = k <;> simp [hj, hzr]

/-! ## Emission and `Except` lemmas -/

theorem mem_emitAlerts {β : Type} (rule lv : String) (reasonOf : β → String)
    (pass : β → Bool) (m : List (String × β)) (a : Alert) :
    a ∈ emitAlerts rule lv reasonOf pass m ↔
      ∃ p ∈ m, pass p.2 = true ∧ a = ⟨rule, lv, p.1, reasonOf p.2⟩ := by
  simp only [emitAlerts, List.mem_filterMap]
  constructor
  · rintro ⟨p, hp, hf⟩
    by_cases h : pass p.2 = true
    · rw [if_pos h] at hf
      exact ⟨p, hp, h, (Option.some_inj.1 hf).symm⟩
    · rw [if_neg h] at hf
      cases hf
  · rintro ⟨p, hp, h, rfl⟩
    exact ⟨p, hp, by rw [if_pos h]⟩

theorem except_map_ok {ε α β : Type} {f : α → β} {x : Except ε α} {b : β}
    (h : x.map f = .ok b) : ∃ a, x = .ok a ∧ f a = b := by
  cases x with
  | error e => simp [Except.map] at h
  | ok a =>
    refine ⟨a, rfl, ?_⟩
    simpa [Except.map] using h

theorem except_bind_ok {ε α β : Type} {x : Except ε α} {f : α → Except ε β} {b : β}
    (h : x >>= f = .ok b) : ∃ a, x = .ok a ∧ f a = .ok b := by
  cases x with
  | error e => simp [Bind.bind, Except.bind] at h
  | ok a =>
    refine ⟨a, rfl, ?_⟩
    simpa [Bind.bind, Except.bind] using h

/-! ## Monadic-to-pure bridge -/

theorem within_hours_ok {now : Int} {ts : String} {hours : Int} {b : Bool}
    (h : within_hours now ts hours = .ok b) : withinP now ts hours = b := by
  unfold within_hours at h
  cases hp : parse_time ts with
  | none => rw [hp] at h; cases h
  | some t =>
    rw [hp] at h
    injection h with h
    unfold withinP
    rw [hp]
    exact h

theorem within_hours_of_parse {now : Int} {ts : String} {hours : Int} {t : Int}
    (hp : parse_time ts = some t) :
    within_hours now ts hours = .ok (withinP now ts hours) := by
  unfold within_hours withinP
  rw [hp]

theorem tallyMG_eq_ok_aux {β : Type} (add : β → β → β)
    (cM : Signal → Except String (Option β)) (cP : Signal → Option β)
    (hc : ∀ s x, cM s = .ok x → x = cP s) :
    ∀ (l : List Signal) (m₀ m : List (String × β)),
      List.foldlM (fun m s => do
        match (← cM s) with
        | some d => pure (bumpG add m s.village d)
        | none => pure m) m₀ l = .ok m →
      m = List.foldl (tallyStep add Signal.village cP) m₀ l := by
  intro l
  induction l with
  | nil =>
    intro m₀ m h
    simp only [List.foldlM_nil] at h
    injection h with h
    simp [h.symm]
  | cons x t ih =>
    intro m₀ m h
    rw [List.foldlM_cons] at h
    obtain ⟨m₁, h₁, h₂⟩ := except_bind_ok h
    obtain ⟨o, ho, hm⟩ := except_bind_ok h₁
    have hox : o = cP x := hc x o ho
    subst hox
    cases hcx : cP x with
    | some d =>
      rw [hcx] at hm
      injection hm with hm
      rw [← hm] at h₂
      simp only [List.foldl_cons, tallyStep, hcx]
      exact ih _ _ h₂
    | none =>
      rw [hcx] at hm
      injection hm with hm
      rw [← hm] at h₂
      simp only [List.foldl_cons, tallyStep, hcx]
      exact ih _ _ h₂

theorem tallyMG_eq_ok {β : Type} (add : β → β → β)
    (cM : Signal → Except String (Option β)) (cP : Signal → Option β)
    (hc : ∀ s x, cM s = .ok x → x = cP s) (l : List Signal) (m : List (String × β))
    (h : tallyMG add cM l = .ok m) : m = tallyG add Signal.village cP l := by
  exact tallyMG_eq_ok_aux add cM cP hc l [] m h

theorem tallyMG_ok_of_forall_aux {β : Type} (add : β → β → β)
    (cM : Signal → Except String (Option β)) (cP : Signal → Option β) :
    ∀ (l : List Signal), (∀ s ∈ l, cM s = .ok (cP s)) → ∀ (m₀ : List (String × β)),
      List.foldlM (fun m s => do
        match (← cM s) with
        | some d => pure (bumpG add m s.village d)
        | none => pure m) m₀ l = .ok (List.foldl (tallyStep add Signal.village cP) m₀ l) := by
  intro l
  induction l with
  | nil =>
    intro _ m₀
    rfl
  | cons x t ih =>
    intro h m₀
    rw [List.foldlM_cons, h x (List.mem_cons_self x t)]
    simp only [List.foldl_cons, tallyStep]
    cases hcx : cP x with
    | some d =>
      simp only [pure, Except.pure, Bind.bind, Except.bind, hcx]
      exact ih (fun s hs => h s (List.mem_cons_of_mem x hs)) _
    | none =>
      simp only [pure, Except.pure, Bind.bind, Except.bind, hcx]
      exact ih (fun s hs => h s (List.mem_cons_of_mem x hs)) _

theorem tallyMG_ok_of_forall {β : Type} (add : β → β → β)
    (cM : Signal → Except String (Option β)) (cP : Signal → Option β) (l : List Signal)
    (h : ∀ s ∈ l, cM s = .ok (cP s)) :
    tallyMG add cM l = .ok (tallyG add Signal.village cP l) :=
  tallyMG_ok_of_forall_aux add cM cP l h []

theorem tallyMG_not_ok {β : Type} (add : β → β → β)
    (cM : Signal → Except String (Option β)) :
    ∀ (l : List Signal) (m₀ : List (String × β)) (s : Signal), s ∈ l →
      (∀ x, cM s ≠ .ok x) → ∀ m,
      List.foldlM (fun m s => do
        match (← cM s) with
        | some d => pure (bumpG add m s.village d)
        | none => pure m) m₀ l ≠ .ok m := by
  intro l
  induction l with
  | nil =>
    intro m₀ s hs
    cases hs
  | cons x t ih =>
    intro m₀ s hs hbad m h
    rw [List.foldlM_cons] at h
    obtain ⟨m₁, h₁, h₂⟩ := except_bind_ok h
    obtain ⟨o, ho, _⟩ := except_bind_ok h₁
    rcases List.mem_cons.1 hs with rfl | hs'
    · exact hbad o ho
    · exact ih m₁ s hs' hbad m h₂

/-- A contribution defined by a window check followed by a pure selector. -/
theorem contrib_map_ok {β : Type} {now hours : Int} {ts : String} {g : Bool → Option β}
    {x : Option β} (h : (within_hours now ts hours).map g = .ok x) :
    x = g (withinP now ts hours) := by
  obtain ⟨b, hb, hgb⟩ := except_map_ok h
  rw [within_hours_ok hb]
  exact hgb.symm

theorem contrib_map_of_parse {β : Type} {now hours : Int} {ts : String} {g : Bool → Option β}
    {t : Int} (hp : parse_time ts = some t) :
    (within_hours now ts hours).map g = .ok (g (withinP now ts hours)) := by
  rw [within_hours_of_parse hp]
  rfl

theorem a1contrib_ok {now : Int} {s : Signal} {x : Option Nat}
    (h : a1contribM now s = .ok x) : x = a1contribP now s := by
  unfold a1contribM at h
  unfold a1contribP
  by_cases hs : s.severity = "high"
  · rw [if_pos hs] at h
    rw [if_pos hs]
    exact contrib_map_ok h
  · rw [if_neg hs] at h
    rw [if_neg hs]
    injection h with h
    exact h.symm

theorem a1contrib_of_parse {now : Int} {s : Signal} {t : Int}
    (hp : parse_time s.timestamp = some t) : a1contribM now s = .ok (a1contribP now s) := by
  unfold a1contribM a1contribP
  by_cases hs : s.severity = "high"
  · rw [if_pos hs, if_pos hs]
    exact contrib_map_of_parse hp
  · rw [if_neg hs, if_neg hs]

theorem a2contrib_ok {now : Int} {s : Signal} {x : Option (Nat × Nat)}
    (h : a2contribM now s = .ok x) : x = a2contribP now s := by
  unfold a2contribM at h
  unfold a2contribP
  exact contrib_map_ok h

theorem a2contrib_of_parse {now : Int} {s : Signal} {t : Int}
    (hp : parse_time s.timestamp = some t) : a2contribM now s = .ok (a2contribP now s) := by
  unfold a2contribM a2contribP
  exact contrib_map_of_parse hp

theorem a3contrib_ok {now : Int} {s : Signal} {x : Option Nat}
    (h : a3contribM now s = .ok x) : x = a3contribP now s := by
  unfold a3contribM at h
  unfold a3contribP
  by_cases hs : s.severity = "medium"
  · rw [if_pos hs] at h
    rw [if_pos hs]
    exact contrib_map_ok h
  · rw [if_neg hs] at h
    rw [if_neg hs]
    injection h with h
    exact h.symm

theorem a3contrib_of_parse {now : Int} {s : Signal} {t : Int}
    (hp : parse_time s.timestamp = some t) : a3contribM now s = .ok (a3contribP now s) := by
  unfold a3contribM a3contribP
  by_cases hs : s.severity = "medium"
  · rw [if_pos hs, if_pos hs]
    exact contrib_map_of_parse hp
  · rw [if_neg hs, if_neg hs]

theorem volContrib_ok {hours now : Int} {s : Signal} {x : Option Nat}
    (h : volContribM hours now s = .ok x) : x = volContribP hours now s := by
  unfold volContribM at h
  unfold volContribP
  exact contrib_map_ok h

theorem volContrib_of_parse {hours now : Int} {s : Signal} {t : Int}
    (hp : parse_time s.timestamp = some t) :
    volContribM hours now s = .ok (volContribP hours now s) := by
  unfold volContribM volContribP
  exact contrib_map_of_parse hp

theorem c2contrib_ok {now : Int} {s : Signal} {x : Option Nat}
    (h : c2contribM now s = .ok x) : x = c2contribP now s := by
  unfold c2contribM at h
  unfold c2contribP
  exact contrib_map_ok h

theorem c2contrib_of_parse {now : Int} {s : Signal} {t : Int}
    (hp : parse_time s.timestamp = some t) : c2contribM now s = .ok (c2contribP now s) := by
  unfold c2contribM c2contribP
  exact contrib_map_of_parse hp

theorem c3contrib_ok {now : Int} {s : Signal} {x : Option Nat}
    (h : c3contribM now s = .ok x) : x = c3contribP now s := by
  unfold c3contribM at h
  unfold c3contribP
  exact contrib_map_ok h

theorem c3contrib_of_parse {now : Int} {s : Signal} {t : Int}
    (hp : parse_time s.timestamp = some t) : c3contribM now s = .ok (c3contribP now s) := by
  unfold c3contribM c3contribP
  exact contrib_map_of_parse hp

theorem d1contrib_ok {now : Int} {s : Signal} {x : Option (Nat × Nat)}
    (h : d1contribM now s = .ok x) : x = d1contribP now s := by
  unfold d1contribM at h
  unfold d1contribP
  cases hp : parse_time s.timestamp with
  | none => rw [hp] at h; cases h
  | some t =>
    rw [hp] at h
    injection h with h
    exact h.symm

theorem d1contrib_of_parse {now : Int} {s : Signal} {t : Int}
    (hp : parse_time s.timestamp = some t) : d1contribM now s = .ok (d1contribP now s) := by
  unfold d1contribM d1contribP
  rw [hp]

theorem d2contrib_ok {now : Int} {s : Signal} {x : Option (List Int)}
    (h : d2contribM now s = .ok x) : x = d2contribP now s := by
  unfold d2contribM at h
  unfold d2contribP
  cases hp : parse_time s.timestamp with
  | none => rw [hp] at h; cases h
  | some t =>
    rw [hp] at h
    injection h with h
    exact h.symm

theorem d2contrib_of_parse {now : Int} {s : Signal} {t : Int}
    (hp : parse_time s.timestamp = some t) : d2contribM now s = .ok (d2contribP now s) := by
  unfold d2contribM d2contribP
  rw [hp]

theorem d3contrib_ok {now : Int} {s : Signal} {x : Option Nat}
    (h : d3contribM now s = .ok x) : x = d3contribP now s := by
  unfold d3contribM at h
  unfold d3contribP
  exact contrib_map_ok h

theorem d3contrib_of_parse {now : Int} {s : Signal} {t : Int}
    (hp : parse_time s.timestamp = some t) : d3contribM now s = .ok (d3contribP now s) := by
  unfold d3contribM d3contribP
  exact contrib_map_of_parse hp

theorem e1contrib_ok {now : Int} {s : Signal} {x : Option Nat}
    (h : e1contribM now s = .ok x) : x = e1contribP now s := by
  unfold e1contribM at h
  unfold e1contribP
  exact contrib_map_ok h

theorem e1contrib_of_parse {now : Int} {s : Signal} {t : Int}
    (hp : parse_time s.timestamp = some t) : e1contribM now s = .ok (e1contribP now s) := by
  unfold e1contribM e1contribP
  exact contrib_map_of_parse hp

theorem e2contrib_ok {now : Int} {s : Signal} {x : Option (Nat × Nat)}
    (h : e2contribM now s = .ok x) : x = e2contribP now s := by
  unfold e2contribM at h
  unfold e2contribP
  cases hp : parse_time s.timestamp with
  | none => rw [hp] at h; cases h
  | some t =>
    rw [hp] at h
    injection h with h
    exact h.symm

theorem e2contrib_of_parse {now : Int} {s : Signal} {t : Int}
    (hp : parse_time s.timestamp = some t) : e2contribM now s = .ok (e2contribP now s) := by
  unfold e2contribM e2contribP
  rw [hp]

/-! ## Rule-level bridges -/

theorem rule_map_eq_ok {β : Type} {add : β → β → β} {cM : Signal → Except String (Option β)}
    {cP : Signal → Option β} (hc : ∀ s x, cM s = .ok x → x = cP s)
    {l : List Signal} {alerts : List Alert} {r lv : String} {reasonOf : β → String}
    {pass : β → Bool}
    (h : (tallyMG add cM l).map (emitAlerts r lv reasonOf pass) = .ok alerts) :
    alerts = emitAlerts r lv reasonOf pass (tallyG add Signal.village cP l) := by
  obtain ⟨m, hm, he⟩ := except_map_ok h
  rw [tallyMG_eq_ok add cM cP hc l m hm] at he
  exact he.symm

theorem rule_map_of_forall {β : Type} {add : β → β → β} {cM : Signal → Except String (Option β)}
    {cP : Signal → Option β} {l : List Signal} (h : ∀ s ∈ l, cM s = .ok (cP s))
    (r lv : String) (reasonOf : β → String) (pass : β → Bool) :
    (tallyMG add cM l).map (emitAlerts r lv reasonOf pass) =
      .ok (emitAlerts r lv reasonOf pass (tallyG add Signal.village cP l)) := by
  rw [tallyMG_ok_of_forall add cM cP l h]
  rfl

theorem allParse_forall {signals : List Signal} (h : allParse signals = true) :
    ∀ s ∈ signals, ∃ t, parse_time s.timestamp = some t := by
  intro s hs
  have := (List.all_eq_true.1 h) s hs
  exact Option.isSome_iff_exists.1 this

theorem rule_A1_ok {now : Int} {signals : List Signal} {alerts : List Alert}
    (h : rule_A1_high_severity_cluster now signals = .ok alerts) :
    alerts = rule_A1P now signals :=
  rule_map_eq_ok (fun _ _ hx => a1contrib_ok hx) h

theorem rule_A1_of_allParse {now : Int} {signals : List Signal} (h : allParse signals = true) :
    rule_A1_high_severity_cluster now signals = .ok (rule_A1P now signals) :=
  rule_map_of_forall (fun s hs => by
    obtain ⟨t, ht⟩ := allParse_forall h s hs
    exact a1contrib_of_parse ht) _ _ _ _

theorem rule_A2_ok {now : Int} {signals : List Signal} {alerts : List Alert}
    (h : rule_A2_mixed_severity now signals = .ok alerts) :
    alerts = rule_A2P now signals :=
  rule_map_eq_ok (fun _ _ hx => a2contrib_ok hx) h

theorem rule_A2_of_allParse {now : Int} {signals : List Signal} (h : allParse signals = true) :
    rule_A2_mixed_severity now signals = .ok (rule_A2P now signals) :=
  rule_map_of_forall (fun s hs => by
    obtain ⟨t, ht⟩ := allParse_forall h s hs
    exact a2contrib_of_parse ht) _ _ _ _

theorem rule_A3_ok {now : Int} {signals : List Signal} {alerts : List Alert}
    (h : rule_A3_repeated_medium now signals = .ok alerts) :
    alerts = rule_A3P now signals :=
  rule_map_eq_ok (fun _ _ hx => a3contrib_ok hx) h

theorem rule_A3_of_allParse {now : Int} {signals : List Signal} (h : allParse signals = true) :
    rule_A3_repeated_medium now signals = .ok (rule_A3P now signals) :=
  rule_map_of_forall (fun s hs => by
    obtain ⟨t, ht⟩ := allParse_forall h s hs
    exact a3contrib_of_parse ht) _ _ _ _

theorem rule_B1_ok {now : Int} {signals : List Signal} {alerts : List Alert}
    (h : rule_B1_volume_24h now signals = .ok alerts) : alerts = rule_B1P now signals :=
  rule_map_eq_ok (fun _ _ hx => volContrib_ok hx) h

theorem rule_B1_of_allParse {now : Int} {signals : List Signal} (h : allParse signals = true) :
    rule_B1_volume_24h now signals = .ok (rule_B1P now signals) :=
  rule_map_of_forall (fun s hs => by
    obtain ⟨t, ht⟩ := allParse_forall h s hs
    exact volContrib_of_parse ht) _ _ _ _

theorem rule_B2_ok {now : Int} {signals : List Signal} {alerts : List Alert}
    (h : rule_B2_volume_48h now signals = .ok alerts) : alerts = rule_B2P now signals :=
  rule_map_eq_ok (fun _ _ hx => volContrib_ok hx) h

theorem rule_B2_of_allParse {now : Int} {signals : List Signal} (h : allParse signals = true) :
    rule_B2_volume_48h now signals = .ok (rule_B2P now signals) :=
  rule_map_of_forall (fun s hs => by
    obtain ⟨t, ht⟩ := allParse_forall h s hs
    exact volContrib_of_parse ht) _ _ _ _

theorem rule_B3_ok {now : Int} {signals : List Signal} {alerts : List Alert}
    (h : rule_B3_extreme_volume now signals = .ok alerts) : alerts = rule_B3P now signals :=
  rule_map_eq_ok (fun _ _ hx => volContrib_ok hx) h

theorem rule_B3_of_allParse {now : Int} {signals : List Signal} (h : allParse signals = true) :
    rule_B3_extreme_volume now signals = .ok (rule_B3P now signals) :=
  rule_map_of_forall (fun s hs => by
    obtain ⟨t, ht⟩ := allParse_forall h s hs
    exact volContrib_of_parse ht) _ _ _ _

theorem rule_C2_ok {now : Int} {signals : List Signal} {alerts : List Alert}
    (h : rule_C2_fever_loose_motion now signals = .ok alerts) :
    alerts = rule_C2P now signals :=
  rule_map_eq_ok (fun _ _ hx => c2contrib_ok hx) h

theorem rule_C2_of_allParse {now : Int} {signals : List Signal} (h : allParse signals = true) :
    rule_C2_fever_loose_motion now signals = .ok (rule_C2P now signals) :=
  rule_map_of_forall (fun s hs => by
    obtain ⟨t, ht⟩ := allParse_forall h s hs
    exact c2contrib_of_parse ht) _ _ _ _

theorem rule_C3_ok {now : Int} {signals : List Signal} {alerts : List Alert}
    (h : rule_C3_weakness_dominant now signals = .ok alerts) :
    alerts = rule_C3P now signals :=
  rule_map_eq_ok (fun _ _ hx => c3contrib_ok hx) h

theorem rule_C3_of_allParse {now : Int} {signals : List Signal} (h : allParse signals = true) :
    rule_C3_weakness_dominant now signals = .ok (rule_C3P now signals) :=
  rule_map_of_forall (fun s hs => by
    obtain ⟨t, ht⟩ := allParse_forall h s hs
    exact c3contrib_of_parse ht) _ _ _ _

theorem rule_D1_ok {now : Int} {signals : List Signal} {alerts : List Alert}
    (h : rule_D1_rising_trend now signals = .ok alerts) : alerts = rule_D1P now signals :=
  rule_map_eq_ok (fun _ _ hx => d1contrib_ok hx) h

theorem rule_D1_of_allParse {now : Int} {signals : List Signal} (h : allParse signals = true) :
    rule_D1_rising_trend now signals = .ok (rule_D1P now signals) :=
  rule_map_of_forall (fun s hs => by
    obtain ⟨t, ht⟩ := allParse_forall h s hs
    exact d1contrib_of_parse ht) _ _ _ _

theorem rule_D2_ok {now : Int} {signals : List Signal} {alerts : List Alert}
    (h : rule_D2_continuous_reporting now signals = .ok alerts) :
    alerts = rule_D2P now signals :=
  rule_map_eq_ok (fun _ _ hx => d2contrib_ok hx) h

theorem rule_D2_of_allParse {now : Int} {signals : List Signal} (h : allParse signals = true) :
    rule_D2_continuous_reporting now signals = .ok (rule_D2P now signals) :=
  rule_map_of_forall (fun s hs => by
    obtain ⟨t, ht⟩ := allParse_forall h s hs
    exact d2contrib_of_parse ht) _ _ _ _

theorem rule_D3_ok {now : Int} {signals : List Signal} {alerts : List Alert}
    (h : rule_D3_long_tail now signals = .ok alerts) : alerts = rule_D3P now signals :=
  rule_map_eq_ok (fun _ _ hx => d3contrib_ok hx) h

theorem rule_D3_of_allParse {now : Int} {signals : List Signal} (h : allParse signals = true) :
    rule_D3_long_tail now signals = .ok (rule_D3P now signals) :=
  rule_map_of_forall (fun s hs => by
    obtain ⟨t, ht⟩ := allParse_forall h s hs
    exact d3contrib_of_parse ht) _ _ _ _

theorem rule_E1_ok {now : Int} {signals : List Signal} {alerts : List Alert}
    (h : rule_E1_weighted_score now signals = .ok alerts) : alerts = rule_E1P now signals :=
  rule_map_eq_ok (fun _ _ hx => e1contrib_ok hx) h

theorem rule_E1_of_allParse {now : Int} {signals : List Signal} (h : allParse signals = true) :
    rule_E1_weighted_score now signals = .ok (rule_E1P now signals) :=
  rule_map_of_forall (fun s hs => by
    obtain ⟨t, ht⟩ := allParse_forall h s hs
    exact e1contrib_of_parse ht) _ _ _ _

theorem rule_E2_ok {now : Int} {signals : List Signal} {alerts : List Alert}
    (h : rule_E2_score_growth now signals = .ok alerts) : alerts = rule_E2P now signals :=
  rule_map_eq_ok (fun _ _ hx => e2contrib_ok hx) h

theorem rule_E2_of_allParse {now : Int} {signals : List Signal} (h : allParse signals = true) :
    rule_E2_score_growth now signals = .ok (rule_E2P now signals) :=
  rule_map_of_forall (fun s hs => by
    obtain ⟨t, ht⟩ := allParse_forall h s hs
    exact e2contrib_of_parse ht) _ _ _ _

/-! ## Orchestrator bridges -/

theorem candidatesM_eq_ok {now : Int} {signals : List Signal} {cands : List Alert}
    (h : candidatesM now signals = .ok cands) : cands = candidatesP now signals := by
  unfold candidatesM candidatesClock at h
  obtain ⟨a1, h1, h⟩ := except_bind_ok h
  obtain ⟨a2, h2, h⟩ := except_bind_ok h
  obtain ⟨a3, h3, h⟩ := except_bind_ok h
  obtain ⟨b1, hb1, h⟩ := except_bind_ok h
  obtain ⟨b2, hb2, h⟩ := except_bind_ok h
  obtain ⟨b3, hb3, h⟩ := except_bind_ok h
  obtain ⟨c2, hc2, h⟩ := except_bind_ok h
  obtain ⟨c3, hc3, h⟩ := except_bind_ok h
  obtain ⟨d1, hd1, h⟩ := except_bind_ok h
  obtain ⟨d2, hd2, h⟩ := except_bind_ok h
  obtain ⟨d3, hd3, h⟩ := except_bind_ok h
  obtain ⟨e1, he1, h⟩ := except_bind_ok h
  obtain ⟨e2, he2, h⟩ := except_bind_ok h
  injection h with h
  rw [rule_A1_ok h1, rule_A2_ok h2, rule_A3_ok h3, rule_B1_ok hb1, rule_B2_ok hb2,
    rule_B3_ok hb3, rule_C2_ok hc2, rule_C3_ok hc3, rule_D1_ok hd1, rule_D2_ok hd2,
    rule_D3_ok hd3, rule_E1_ok he1, rule_E2_ok he2] at h
  exact h.symm

theorem candidatesM_of_allParse {now : Int} {signals : List Signal}
    (h : allParse signals = true) : candidatesM now signals = .ok (candidatesP now signals) := by
  unfold candidatesM candidatesClock candidatesP
  rw [rule_A1_of_allParse h, rule_A2_of_allParse h, rule_A3_of_allParse h,
    rule_B1_of_allParse h, rule_B2_of_allParse h, rule_B3_of_allParse h,
    rule_C2_of_allParse h, rule_C3_of_allParse h, rule_D1_of_allParse h,
    rule_D2_of_allParse h, rule_D3_of_allParse h, rule_E1_of_allParse h,
    rule_E2_of_allParse h]
  rfl

theorem run_all_rules_ok {now : Int} {signals : List Signal} {out : List Alert}
    (h : run_all_rules now signals = .ok out) :
    ∃ cands, candidatesM now signals = .ok cands ∧ out = rule_F1_multi_rule cands := by
  unfold run_all_rules at h
  obtain ⟨cands, hc, h⟩ := except_bind_ok h
  injection h with h
  exact ⟨cands, hc, h.symm⟩

theorem run_all_rules_of_allParse {now : Int} {signals : List Signal}
    (h : allParse signals = true) :
    run_all_rules now signals = .ok (run_all_rulesP now signals) := by
  unfold run_all_rules run_all_rulesP
  rw [candidatesM_of_allParse h]
  rfl

/-! ## Characterization of the simple counting rules -/

/-- Signals of village `v` passing the boolean test `q`. -/
def countQ (q : Signal → Bool) (signals : List Signal) (v : String) : Nat :=
  (signals.filter (fun s => decide (s.village = v) && q s)).length

theorem lookupG_countQ {q : Signal → Bool} {contrib : Signal → Option Nat}
    (hc : ∀ s, contrib s = if q s then some 1 else none) (signals : List Signal) (v : String) :
    lookupG 0 (tallyG Nat.add Signal.village contrib signals) v = countQ q signals v :=
  lookupG_tallyG_count Signal.village contrib q hc signals v

theorem mem_keysG_countQ {q : Signal → Bool} {contrib : Signal → Option Nat}
    (hc : ∀ s, contrib s = if q s then some 1 else none) (signals : List Signal) (v : String) :
    v ∈ keysG (tallyG Nat.add Signal.village contrib signals) ↔ 0 < countQ q signals v := by
  rw [mem_keysG_tallyG]
  unfold countQ
  constructor
  · rintro ⟨s, hs, hv, hsome⟩
    rw [hc s] at hsome
    have hq : q s = true := by
      by_cases h : q s = true
      · exact h
      · rw [if_neg h] at hsome
        cases hsome
    rw [List.length_pos]
    intro hnil
    have : s ∈ List.filter (fun s => decide (s.village = v) && q s) signals := by
      rw [List.mem_filter]
      exact ⟨hs, by simp [hv, hq]⟩
    rw [hnil] at this
    cases this
  · intro hpos
    rw [List.length_pos] at hpos
    obtain ⟨s, hs⟩ := List.exists_mem_of_ne_nil _ hpos
    rw [List.mem_filter] at hs
    obtain ⟨hmem, hp⟩ := hs
    rw [Bool.and_eq_true, decide_eq_true_eq] at hp
    exact ⟨s, hmem, hp.1, by rw [hc s, if_pos hp.2]; rfl⟩

/-- Membership in the alert list of a threshold-counting rule (threshold at
least one): exactly the villages whose count reaches the threshold. -/
theorem mem_emit_countQ {q : Signal → Bool} {contrib : Signal → Option Nat}
    (hc : ∀ s, contrib s = if q s then some 1 else none) (r lv : String)
    (reasonOf : Nat → String) (thr : Nat) (hthr : 1 ≤ thr) (signals : List Signal)
    (a : Alert) :
    a ∈ emitAlerts r lv reasonOf (fun c => decide (thr ≤ c))
        (tallyG Nat.add Signal.village contrib signals) ↔
      ∃ v, thr ≤ countQ q signals v ∧ a = ⟨r, lv, v, reasonOf (countQ q signals v)⟩ := by
  rw [mem_emitAlerts]
  constructor
  · rintro ⟨⟨v, c⟩, hp, hpass, rfl⟩
    have hcv : c = countQ q signals v := by
      rw [← lookupG_countQ hc signals v]
      exact (lookupG_eq_of_mem 0 _ v c (keysG_nodup_tallyG _ _ _ _) hp).symm
    rw [decide_eq_true_eq] at hpass
    exact ⟨v, hcv ▸ hpass, by rw [hcv]⟩
  · rintro ⟨v, hthr', rfl⟩
    have hkey : v ∈ keysG (tallyG Nat.add Signal.village contrib signals) := by
      rw [mem_keysG_countQ hc]
      omega
    refine ⟨(v, lookupG 0 (tallyG Nat.add Signal.village contrib signals) v),
      mem_of_mem_keysG 0 _ v hkey, ?_, ?_⟩
    · rw [lookupG_countQ hc signals v, decide_eq_true_eq]
      exact hthr'
    · rw [lookupG_countQ hc signals v]

theorem a1contribP_eq {now : Int} (s : Signal) :
    a1contribP now s =
      if decide (s.severity = "high") && withinP now s.timestamp 24 then some 1 else none := by
  unfold a1contribP
  by_cases hs : s.severity = "high" <;> by_cases hw : withinP now s.timestamp 24 = true <;>
    simp [hs, hw]

theorem volContribP_eq {hours now : Int} (s : Signal) :
    volContribP hours now s = if withinP now s.timestamp hours then some 1 else none := rfl

theorem rule_A1P_mem (now : Int) (signals : List Signal) (a : Alert) :
    a ∈ rule_A1P now signals ↔
      ∃ v, 3 ≤ countHigh24 now signals v ∧
        a = ⟨"A1_HIGH_SEVERITY_CLUSTER", "HIGH", v, a1reason (countHigh24 now signals v)⟩ := by
  unfold rule_A1P
  exact mem_emit_countQ (fun s => a1contribP_eq s) "A1_HIGH_SEVERITY_CLUSTER" "HIGH" a1reason 3
    (by omega) signals a

theorem rule_B2P_mem (now : Int) (signals : List Signal) (a : Alert) :
    a ∈ rule_B2P now signals ↔
      ∃ v, 5 ≤ count48 now signals v ∧
        a = ⟨"B2_VOLUME_48H", "HIGH", v, toString (count48 now signals v) ++ " reports in 48h"⟩ := by
  unfold rule_B2P
  exact mem_emit_countQ (fun s => volContribP_eq s) "B2_VOLUME_48H" "HIGH"
    (fun c => toString c ++ " reports in 48h") 5 (by omega) signals a

theorem rule_B3P_mem (now : Int) (signals : List Signal) (a : Alert) :
    a ∈ rule_B3P now signals ↔
      ∃ v, 10 ≤ count48 now signals v ∧
        a = ⟨"B3_EXTREME_VOLUME", "CRITICAL", v,
          toString (count48 now signals v) ++ " reports in 48h"⟩ := by
  unfold rule_B3P
  exact mem_emit_countQ (fun s => volContribP_eq s) "B3_EXTREME_VOLUME" "CRITICAL"
    (fun c => toString c ++ " reports in 48h") 10 (by omega) signals a

/-! ## Concrete scenario inputs -/

/-- Three high-severity reports from one village, timestamps at the reference
instant. -/
def threeHighSignals : List Signal :=
  [⟨"Riverside", "high", [], "1000"⟩, ⟨"Riverside", "high", [], "1000"⟩,
   ⟨"Riverside", "high", [], "1000"⟩]

/-- Ten reports of one village inside the 48h window. -/
def tenSignals : List Signal := List.replicate 10 ⟨"Lakeview", "low", [], "1000"⟩

/-- Two signals of one village, each with three distinct symptoms, low
severity: only rule C1 fires on them, once per signal. -/
def twoSymptomSignals : List Signal :=
  [⟨"V", "low", ["fever", "vomiting", "headache"], "1000"⟩,
   ⟨"V", "low", ["fever", "vomiting", "headache"], "1000"⟩]

def escalatedC1Alert : Alert :=
  ⟨"C1_SYMPTOM_DIVERSITY", "HIGH", "V", "Single report has 3+ symptoms (multiple rules triggered)"⟩

/-! ## Claim C4 -/

/-- C4: rule A1 emits a candidate for village `v` iff the number of
`severity = "high"` signals of `v` within 24 hours of the reference instant is
at least 3; the alert carries level `"HIGH"` and reason
`"N high severity reports in 24h"` for that count `N`. -/
theorem C4_rule_A1_characterization (now : Int) (signals : List Signal) (alerts : List Alert)
    (h : rule_A1_high_severity_cluster now signals = .ok alerts) (v : String) :
    ((∃ a ∈ alerts, a.village = v) ↔ 3 ≤ countHigh24 now signals v) ∧
    (∀ a ∈ alerts, a.village = v → a.level = "HIGH" ∧
      a.reason = toString (countHigh24 now signals v) ++ " high severity reports in 24h") := by
  have halerts := rule_A1_ok h
  subst halerts
  constructor
  · constructor
    · rintro ⟨a, ha, hav⟩
      obtain ⟨v', h3, rfl⟩ := (rule_A1P_mem now signals a).1 ha
      exact hav ▸ h3
    · intro h3
      exact ⟨_, (rule_A1P_mem now signals _).2 ⟨v, h3, rfl⟩, rfl⟩
  · intro a ha hav
    obtain ⟨v', h3, rfl⟩ := (rule_A1P_mem now signals a).1 ha
    have : v' = v := hav
    subst this
    exact ⟨rfl, rfl⟩

theorem C4_witness :
    ((∃ a ∈ [(⟨"A1_HIGH_SEVERITY_CLUSTER", "HIGH", "Riverside",
        "3 high severity reports in 24h"⟩ : Alert)], a.village = "Riverside") ↔
      3 ≤ countHigh24 1000 threeHighSignals "Riverside") ∧
    (∀ a ∈ [(⟨"A1_HIGH_SEVERITY_CLUSTER", "HIGH", "Riverside",
        "3 high severity reports in 24h"⟩ : Alert)], a.village = "Riverside" →
      a.level = "HIGH" ∧ a.reason = toString (countHigh24 1000 threeHighSignals "Riverside") ++
        " high severity reports in 24h") :=
  C4_rule_A1_characterization 1000 threeHighSignals _ (by decide) "Riverside"

/-! ## Claim C5 -/

/-- C5: B3 fires for `v` iff the 48h any-severity count (the one B2 also
computes) is at least 10; whenever B3 fires for `v` so does B2; B3's alerts
carry level `"CRITICAL"` and B2's level `"HIGH"`. -/
theorem C5_B3_B2_relationship (now : Int) (signals : List Signal) (b2 b3 : List Alert)
    (h2 : rule_B2_volume_48h now signals = .ok b2)
    (h3 : rule_B3_extreme_volume now signals = .ok b3) (v : String) :
    ((∃ a ∈ b3, a.village = v) ↔ 10 ≤ count48 now signals v) ∧
    ((∃ a ∈ b3, a.village = v) → ∃ a ∈ b2, a.village = v) ∧
    (∀ a ∈ b3, a.level = "CRITICAL") ∧ (∀ a ∈ b2, a.level = "HIGH") := by
  have hb2 := rule_B2_ok h2
  have hb3 := rule_B3_ok h3
  subst hb2
  subst hb3
  have hiff : (∃ a ∈ rule_B3P now signals, a.village = v) ↔ 10 ≤ count48 now signals v := by
    constructor
    · rintro ⟨a, ha, hav⟩
      obtain ⟨v', h10, rfl⟩ := (rule_B3P_mem now signals a).1 ha
      exact hav ▸ h10
    · intro h10
      exact ⟨_, (rule_B3P_mem now signals _).2 ⟨v, h10, rfl⟩, rfl⟩
  refine ⟨hiff, ?_, ?_, ?_⟩
  · intro hb3v
    have h10 := hiff.1 hb3v
    exact ⟨_, (rule_B2P_mem now signals _).2 ⟨v, by omega, rfl⟩, rfl⟩
  · intro a ha
    obtain ⟨v', _, rfl⟩ := (rule_B3P_mem now signals a).1 ha
    rfl
  · intro a ha
    obtain ⟨v', _, rfl⟩ := (rule_B2P_mem now signals a).1 ha
    rfl

theorem C5_witness :
    ((∃ a ∈ [(⟨"B3_EXTREME_VOLUME", "CRITICAL", "Lakeview", "10 reports in 48h"⟩ : Alert)],
        a.village = "Lakeview") ↔ 10 ≤ count48 1000 tenSignals "Lakeview") ∧
    ((∃ a ∈ [(⟨"B3_EXTREME_VOLUME", "CRITICAL", "Lakeview", "10 reports in 48h"⟩ : Alert)],
        a.village = "Lakeview") →
      ∃ a ∈ [(⟨"B2_VOLUME_48H", "HIGH", "Lakeview", "10 reports in 48h"⟩ : Alert)],
        a.village = "Lakeview") ∧
    (∀ a ∈ [(⟨"B3_EXTREME_VOLUME", "CRITICAL", "Lakeview", "10 reports in 48h"⟩ : Alert)],
      a.level = "CRITICAL") ∧
    (∀ a ∈ [(⟨"B2_VOLUME_48H", "HIGH", "Lakeview", "10 reports in 48h"⟩ : Alert)],
      a.level = "HIGH") :=
  C5_B3_B2_relationship 1000 tenSignals _ _ (by decide) (by decide) "Lakeview"

/-! ## Claim C6 -/

/-- C6: any signal whose timestamp cannot be parsed makes the whole evaluation
abort with an error; no partial alert list is returned. -/
theorem C6_malformed_timestamp_aborts (now : Int) (signals : List Signal)
    (h : ∃ s ∈ signals, parse_time s.timestamp = none) :
    ∃ e, run_all_rules now signals = .error e := by
  obtain ⟨s, hs, hbad⟩ := h
  cases hrun : run_all_rules now signals with
  | error e => exact ⟨e, rfl⟩
  | ok out =>
    exfalso
    obtain ⟨cands, hc, _⟩ := run_all_rules_ok hrun
    unfold candidatesM candidatesClock at hc
    obtain ⟨a1, h1, hc⟩ := except_bind_ok hc
    obtain ⟨a2, h2, _⟩ := except_bind_ok hc
    unfold rule_A2_mixed_severity at h2
    obtain ⟨m, hm, _⟩ := except_map_ok h2
    unfold tallyMG at hm
    refine tallyMG_not_ok pairAdd (a2contribM _) signals [] s hs ?_ m hm
    intro x hx
    unfold a2contribM within_hours at hx
    rw [hbad] at hx
    simp [Except.map] at hx

theorem C6_witness :
    ∃ e, run_all_rules 1000 [⟨"W", "high", [], "not-a-time"⟩] = .error e :=
  C6_malformed_timestamp_aborts 1000 [⟨"W", "high", [], "not-a-time"⟩]
    ⟨⟨"W", "high", [], "not-a-time"⟩, by decide, by decide⟩

/-! ## Claim C10 -/

/-- C10: every alert in the final output of `run_all_rules` has level exactly
`"HIGH"`: the escalation pass overwrites the level of every surviving
candidate. -/
theorem C10_output_level_high (now : Int) (signals : List Signal) (out : List Alert)
    (h : run_all_rules now signals = .ok out) : ∀ a ∈ out, a.level = "HIGH" := by
  obtain ⟨cands, _, rfl⟩ := run_all_rules_ok h
  intro a ha
  unfold rule_F1_multi_rule at ha
  obtain ⟨b, _, hf⟩ := List.mem_filterMap.1 ha
  by_cases hcnt : 2 ≤ lookupG 0 (villageCounts cands) b.village
  · rw [if_pos hcnt] at hf
    injection hf with hf
    rw [← hf]
    rfl
  · rw [if_neg hcnt] at hf
    cases hf

theorem C10_witness : escalatedC1Alert.level = "HIGH" :=
  C10_output_level_high 1000 twoSymptomSignals [escalatedC1Alert, escalatedC1Alert]
    (by decide) escalatedC1Alert (by decide)

/-! ## Escalation-pass characterization -/

theorem villageCounts_lookup (alerts : List Alert) (v : String) :
    lookupG 0 (villageCounts alerts) v = countVillage alerts v := by
  unfold villageCounts countVillage
  rw [lookupG_tallyG_count Alert.village (fun _ => some (1 : Nat)) (fun _ => true)
    (fun _ => rfl) alerts v]
  congr 1
  apply List.filter_congr
  intro a _
  simp

theorem mem_rule_F1 (cands : List Alert) (a : Alert) :
    a ∈ rule_F1_multi_rule cands ↔
      ∃ b ∈ cands, 2 ≤ countVillage cands b.village ∧ a = escalate b := by
  unfold rule_F1_multi_rule
  rw [List.mem_filterMap]
  constructor
  · rintro ⟨b, hb, hf⟩
    by_cases h2 : 2 ≤ lookupG 0 (villageCounts cands) b.village
    · rw [if_pos h2] at hf
      injection hf with hf
      rw [villageCounts_lookup] at h2
      exact ⟨b, hb, h2, hf.symm⟩
    · rw [if_neg h2] at hf
      cases hf
  · rintro ⟨b, hb, h2, rfl⟩
    refine ⟨b, hb, ?_⟩
    rw [if_pos ?_]
    rw [villageCounts_lookup]
    exact h2

theorem two_mem_length {α : Type} {l : List α} {x y : α} (hx : x ∈ l) (hy : y ∈ l)
    (hxy : x ≠ y) : 2 ≤ l.length := by
  induction l with
  | nil => cases hx
  | cons c t ih =>
    rcases List.mem_cons.1 hx with rfl | hx'
    · rcases List.mem_cons.1 hy with rfl | hy'
      · exact absurd rfl hxy
      · have := List.length_pos.2 (List.ne_nil_of_mem hy')
        simp only [List.length_cons]
        omega
    · have := List.length_pos.2 (List.ne_nil_of_mem hx')
      simp only [List.length_cons]
      omega

theorem two_mem_countVillage {cands : List Alert} {x y : Alert} {v : String}
    (hx : x ∈ cands) (hy : y ∈ cands) (hxy : x ≠ y) (hxv : x.village = v)
    (hyv : y.village = v) : 2 ≤ countVillage cands v := by
  unfold countVillage
  have hx' : x ∈ cands.filter (fun a => decide (a.village = v)) :=
    List.mem_filter.2 ⟨hx, by simp [hxv]⟩
  have hy' : y ∈ cands.filter (fun a => decide (a.village = v)) :=
    List.mem_filter.2 ⟨hy, by simp [hyv]⟩
  exact two_mem_length hx' hy' hxy

/-! ## Claim C1 -/

/-- C1: the escalation pass keeps exactly the candidates whose village has at
least two candidates, upgrading them to level `"HIGH"` with the corroboration
suffix appended, and drops every candidate whose village has exactly one
candidate — no alert for such a village survives at all. -/
theorem C1_escalation_pass (now : Int) (signals : List Signal) (cands out : List Alert)
    (hc : candidatesM now signals = .ok cands) (hr : run_all_rules now signals = .ok out) :
    ∀ a ∈ cands,
      (2 ≤ countVillage cands a.village → escalate a ∈ out) ∧
      (countVillage cands a.village = 1 → ∀ b ∈ out, b.village ≠ a.village) := by
  obtain ⟨cands', hc', rfl⟩ := run_all_rules_ok hr
  rw [hc] at hc'
  injection hc' with hc'
  subst hc'
  intro a ha
  constructor
  · intro h2
    exact (mem_rule_F1 cands _).2 ⟨a, ha, h2, rfl⟩
  · intro h1 b hb
    obtain ⟨b', _, h2, rfl⟩ := (mem_rule_F1 cands b).1 hb
    intro hv
    have hv' : b'.village = a.village := hv
    rw [hv'] at h2
    omega

def c1CandidateAlert : Alert :=
  ⟨"C1_SYMPTOM_DIVERSITY", "MEDIUM", "V", "Single report has 3+ symptoms"⟩

theorem C1_witness :
    (2 ≤ countVillage [c1CandidateAlert, c1CandidateAlert] c1CandidateAlert.village →
      escalate c1CandidateAlert ∈ [escalatedC1Alert, escalatedC1Alert]) ∧
    (countVillage [c1CandidateAlert, c1CandidateAlert] c1CandidateAlert.village = 1 →
      ∀ b ∈ [escalatedC1Alert, escalatedC1Alert], b.village ≠ c1CandidateAlert.village) :=
  C1_escalation_pass 1000 twoSymptomSignals [c1CandidateAlert, c1CandidateAlert]
    [escalatedC1Alert, escalatedC1Alert] (by decide) (by decide) c1CandidateAlert (by decide)

/-! ## Claim C2 -/

/-- C2 counterexample: on two three-symptom low-severity reports from village
`"V"` exactly one of the fourteen rules (C1) fires, producing two candidates;
the claim then requires an empty final output, but both candidates escalate
and survive. -/
theorem C2_counterexample :
    candidatesM 1000 twoSymptomSignals = .ok [c1CandidateAlert, c1CandidateAlert] ∧
    (∀ a ∈ [c1CandidateAlert, c1CandidateAlert], a.rule = "C1_SYMPTOM_DIVERSITY") ∧
    run_all_rules 1000 twoSymptomSignals = .ok [escalatedC1Alert, escalatedC1Alert] ∧
    run_all_rules 1000 twoSymptomSignals ≠ .ok ([] : List Alert) := by
  refine ⟨by decide, by decide, by decide, by decide⟩

/-- C2 (amended): a village whose total candidate count across the whole
evaluation is exactly one produces no final alert; a village with candidates
from at least two distinct rules has every one of its candidates present in
the final output, escalated.  (A single rule — C1 — can emit several
candidates for one village, which also escalate; hence "one rule fires" had
to become "one candidate exists".) -/
theorem C2_amended_escalation (now : Int) (signals : List Signal) (cands out : List Alert)
    (hc : candidatesM now signals = .ok cands) (hr : run_all_rules now signals = .ok out)
    (v : String) :
    (countVillage cands v = 1 → ∀ b ∈ out, b.village ≠ v) ∧
    (∀ x y, x ∈ cands → y ∈ cands → x.village = v → y.village = v → x.rule ≠ y.rule →
      ∀ a ∈ cands, a.village = v → escalate a ∈ out) := by
  obtain ⟨cands', hc', rfl⟩ := run_all_rules_ok hr
  rw [hc] at hc'
  injection hc' with hc'
  subst hc'
  constructor
  · intro h1 b hb
    obtain ⟨b', _, h2, rfl⟩ := (mem_rule_F1 cands b).1 hb
    intro hv
    have hv' : b'.village = v := hv
    rw [hv'] at h2
    omega
  · intro x y hx hy hxv hyv hrule a ha hav
    have hxy : x ≠ y := fun h => hrule (by rw [h])
    have h2 : 2 ≤ countVillage cands v := two_mem_countVillage hx hy hxy hxv hyv
    refine (mem_rule_F1 cands _).2 ⟨a, ha, ?_, rfl⟩
    rw [hav]
    exact h2

/-! ## Claim C8 -/

theorem e1score_sum (now : Int) (signals : List Signal) (v : String) :
    e1score now signals v =
      (signals.map (fun s => if s.village = v then (e1contribP now s).getD 0 else 0)).sum := by
  unfold e1score e1scores
  exact lookupG_tallyG_add Signal.village (e1contribP now) signals v

/-- C8: raising one in-window signal's severity along the order
low → medium → high, holding everything else fixed, never decreases the
per-village score computed by rule E1. -/
theorem C8_e1score_monotone (now : Int) (l1 l2 : List Signal) (s : Signal)
    (sev sev' : String)
    (hpair : (sev, sev') ∈ [("low", "medium"), ("low", "high"), ("medium", "high")])
    (hw : withinP now s.timestamp 24 = true) (v : String) :
    e1score now (l1 ++ { s with severity := sev } :: l2) v ≤
      e1score now (l1 ++ { s with severity := sev' } :: l2) v := by
  rw [e1score_sum, e1score_sum]
  simp only [List.map_append, List.map_cons, List.sum_append, List.sum_cons]
  have hle : weightOf sev ≤ weightOf sev' := by
    simp only [List.mem_cons, List.mem_singleton, Prod.mk.injEq] at hpair
    rcases hpair with ⟨rfl, rfl⟩ | ⟨rfl, rfl⟩ | ⟨rfl, rfl⟩ | h
    · decide
    · decide
    · decide
    · cases h
  have h1 : e1contribP now { s with severity := sev } = some (weightOf sev) := by
    unfold e1contribP
    rw [if_pos hw]
  have h2 : e1contribP now { s with severity := sev' } = some (weightOf sev') := by
    unfold e1contribP
    rw [if_pos hw]
  rw [h1, h2]
  by_cases hv : s.village = v
  · have hv1 : ({ s with severity := sev } : Signal).village = v := hv
    have hv2 : ({ s with severity := sev' } : Signal).village = v := hv
    rw [if_pos hv1, if_pos hv2]
    simp only [Option.getD_some]
    omega
  · have hv1 : ¬({ s with severity := sev } : Signal).village = v := hv
    have hv2 : ¬({ s with severity := sev' } : Signal).village = v := hv
    rw [if_neg hv1, if_neg hv2]

theorem C8_witness :
    e1score 1000 ([] ++ { (⟨"L", "low", [], "1000"⟩ : Signal) with severity := "low" } :: []) "L" ≤
      e1score 1000
        ([] ++ { (⟨"L", "low", [], "1000"⟩ : Signal) with severity := "high" } :: []) "L" :=
  C8_e1score_monotone 1000 [] [] ⟨"L", "low", [], "1000"⟩ "low" "high" (by decide) (by decide) "L"

/-! ## Claim C7 -/

theorem tallyG_skip {α β : Type} (add : β → β → β) (key : α → String)
    (contrib : α → Option β) (l1 l2 : List α) (x : α) (hx : contrib x = none) :
    tallyG add key contrib (l1 ++ x :: l2) = tallyG add key contrib (l1 ++ l2) := by
  unfold tallyG
  rw [List.foldl_append, List.foldl_append, List.foldl_cons]
  congr 1
  unfold tallyStep
  rw [hx]

theorem countQ_insert (q : Signal → Bool) (l1 l2 : List Signal) (s : Signal) (v : String) :
    countQ q (l1 ++ s :: l2) v =
      countQ q (l1 ++ l2) v + (if s.village = v ∧ q s = true then 1 else 0) := by
  unfold countQ
  rw [List.filter_append, List.filter_append, List.filter_cons, List.length_append,
    List.length_append]
  by_cases hv : s.village = v <;> by_cases hq : q s = true <;>
    simp [hv, hq] <;> omega

/-- C7: a severity string outside {low, medium, high} is not an error: its
`SEVERITY_WEIGHTS` weight is 0, rules A1, A2, A3 and D3 behave as if the
signal were absent, the per-village scores of E1 and E2 are unchanged, and
the volume counts driving B1, B2 and B3 still include the signal whenever it
is in the window. -/
theorem C7_unknown_severity (now : Int) (l1 l2 : List Signal) (s : Signal)
    (h1 : s.severity ≠ "low") (h2 : s.severity ≠ "medium") (h3 : s.severity ≠ "high") :
    weightOf s.severity = 0 ∧
    rule_A1P now (l1 ++ s :: l2) = rule_A1P now (l1 ++ l2) ∧
    rule_A2P now (l1 ++ s :: l2) = rule_A2P now (l1 ++ l2) ∧
    rule_A3P now (l1 ++ s :: l2) = rule_A3P now (l1 ++ l2) ∧
    rule_D3P now (l1 ++ s :: l2) = rule_D3P now (l1 ++ l2) ∧
    (∀ v, e1score now (l1 ++ s :: l2) v = e1score now (l1 ++ l2) v) ∧
    (∀ v, e2score now (l1 ++ s :: l2) v = e2score now (l1 ++ l2) v) ∧
    (∀ v, count24 now (l1 ++ s :: l2) v = count24 now (l1 ++ l2) v +
      (if s.village = v ∧ withinP now s.timestamp 24 = true then 1 else 0)) ∧
    (∀ v, count48 now (l1 ++ s :: l2) v = count48 now (l1 ++ l2) v +
      (if s.village = v ∧ withinP now s.timestamp 48 = true then 1 else 0)) := by
  have hw0 : weightOf s.severity = 0 := by
    have e1 : (s.severity == "low") = false := beq_eq_false_iff_ne.2 h1
    have e2 : (s.severity == "medium") = false := beq_eq_false_iff_ne.2 h2
    have e3 : (s.severity == "high") = false := beq_eq_false_iff_ne.2 h3
    unfold weightOf SEVERITY_WEIGHTS
    simp [List.lookup, e1, e2, e3]
  refine ⟨hw0, ?_, ?_, ?_, ?_, ?_, ?_, ?_, ?_⟩
  · unfold rule_A1P
    rw [tallyG_skip]
    unfold a1contribP
    rw [if_neg h3]
  · unfold rule_A2P
    rw [tallyG_skip]
    unfold a2contribP
    by_cases hwin : withinP now s.timestamp 24 = true
    · rw [if_pos hwin, if_neg h3, if_neg h2]
    · rw [if_neg hwin]
  · unfold rule_A3P
    rw [tallyG_skip]
    unfold a3contribP
    rw [if_neg h2]
  · unfold rule_D3P
    rw [tallyG_skip]
    unfold d3contribP
    by_cases hwin : withinP now s.timestamp 72 = true
    · have : ¬(s.severity = "low" ∨ s.severity = "medium") := by
        rintro (h | h)
        · exact h1 h
        · exact h2 h
      rw [if_pos hwin, if_neg this]
    · rw [if_neg hwin]
  · intro v
    rw [e1score_sum, e1score_sum]
    simp only [List.map_append, List.map_cons, List.sum_append, List.sum_cons]
    have hs0 : (e1contribP now s).getD 0 = 0 := by
      unfold e1contribP
      by_cases hwin : withinP now s.timestamp 24 = true
      · rw [if_pos hwin, hw0]
        rfl
      · rw [if_neg hwin]
        rfl
    rw [hs0]
    by_cases hv : s.village = v
    · rw [if_pos hv]
      omega
    · rw [if_neg hv]
      omega
  · intro v
    unfold e2score e2scores tallyG
    rw [List.foldl_append, List.foldl_append, List.foldl_cons]
    cases hc : e2contribP now s with
    | none =>
      have : tallyStep pairAdd Signal.village (e2contribP now)
          (List.foldl (tallyStep pairAdd Signal.village (e2contribP now)) [] l1) s =
          List.foldl (tallyStep pairAdd Signal.village (e2contribP now)) [] l1 := by
        unfold tallyStep
        rw [hc]
      rw [this]
    | some d =>
      have hd : d = (0, 0) := by
        cases hp : parse_time s.timestamp with
        | none =>
          have hcs : e2contribP now s = none := by
            unfold e2contribP
            rw [hp]
          rw [hcs] at hc
          cases hc
        | some t =>
          have hcs : e2contribP now s =
              (if now - 24 ≤ t then some (0, weightOf s.severity)
              else if now - 48 ≤ t ∧ t < now - 24 then some (weightOf s.severity, 0)
              else none) := by
            unfold e2contribP
            rw [hp]
          rw [hcs] at hc
          by_cases ha : now - 24 ≤ t
          · rw [if_pos ha] at hc
            injection hc with hc
            rw [← hc, hw0]
          · rw [if_neg ha] at hc
            by_cases hb : now - 48 ≤ t ∧ t < now - 24
            · rw [if_pos hb] at hc
              injection hc with hc
              rw [← hc, hw0]
            · rw [if_neg hb] at hc
              cases hc
      subst hd
      refine lookupG_foldl_congr pairAdd_zero_left Signal.village (e2contribP now) l2 _ _
        (fun j => ?_) v
      unfold tallyStep
      rw [hc]
      exact lookupG_bumpG_zero pairAdd_zero_left pairAdd_zero_right _ _ j
  · intro v
    exact countQ_insert (fun s => withinP now s.timestamp 24) l1 l2 s v
  · intro v
    exact countQ_insert (fun s => withinP now s.timestamp 48) l1 l2 s v

theorem C7_witness :
    weightOf (Signal.severity ⟨"L", "unknown-severity", [], "1000"⟩) = 0 ∧
    rule_A1P 1000 ([] ++ ⟨"L", "unknown-severity", [], "1000"⟩ ::
        [⟨"L", "low", [], "1000"⟩]) = rule_A1P 1000 ([] ++ [⟨"L", "low", [], "1000"⟩]) ∧
    rule_A2P 1000 ([] ++ ⟨"L", "unknown-severity", [], "1000"⟩ ::
        [⟨"L", "low", [], "1000"⟩]) = rule_A2P 1000 ([] ++ [⟨"L", "low", [], "1000"⟩]) ∧
    rule_A3P 1000 ([] ++ ⟨"L", "unknown-severity", [], "1000"⟩ ::
        [⟨"L", "low", [], "1000"⟩]) = rule_A3P 1000 ([] ++ [⟨"L", "low", [], "1000"⟩]) ∧
    rule_D3P 1000 ([] ++ ⟨"L", "unknown-severity", [], "1000"⟩ ::
        [⟨"L", "low", [], "1000"⟩]) = rule_D3P 1000 ([] ++ [⟨"L", "low", [], "1000"⟩]) ∧
    (∀ v, e1score 1000 ([] ++ ⟨"L", "unknown-severity", [], "1000"⟩ ::
        [⟨"L", "low", [], "1000"⟩]) v = e1score 1000 ([] ++ [⟨"L", "low", [], "1000"⟩]) v) ∧
    (∀ v, e2score 1000 ([] ++ ⟨"L", "unknown-severity", [], "1000"⟩ ::
        [⟨"L", "low", [], "1000"⟩]) v = e2score 1000 ([] ++ [⟨"L", "low", [], "1000"⟩]) v) ∧
    (∀ v, count24 1000 ([] ++ ⟨"L", "unknown-severity", [], "1000"⟩ ::
        [⟨"L", "low", [], "1000"⟩]) v = count24 1000 ([] ++ [⟨"L", "low", [], "1000"⟩]) v +
      (if Signal.village ⟨"L", "unknown-severity", [], "1000"⟩ = v ∧
        withinP 1000 (Signal.timestamp ⟨"L", "unknown-severity", [], "1000"⟩) 24 = true
        then 1 else 0)) ∧
    (∀ v, count48 1000 ([] ++ ⟨"L", "unknown-severity", [], "1000"⟩ ::
        [⟨"L", "low", [], "1000"⟩]) v = count48 1000 ([] ++ [⟨"L", "low", [], "1000"⟩]) v +
      (if Signal.village ⟨"L", "unknown-severity", [], "1000"⟩ = v ∧
        withinP 1000 (Signal.timestamp ⟨"L", "unknown-severity", [], "1000"⟩) 48 = true
        then 1 else 0)) :=
  C7_unknown_severity 1000 [] [⟨"L", "low", [], "1000"⟩] ⟨"L", "unknown-severity", [], "1000"⟩
    (by decide) (by decide) (by decide)

/-! ## Support for the Lakeview scenario (claim C3) -/

theorem withinP_true_of {now t hours : Int} {ts : String} (hp : parse_time ts = some t)
    (hle : now - hours ≤ t) : withinP now ts hours = true := by
  unfold withinP
  rw [hp]
  simp [hle]

theorem mem_hourUnion {hs : List Int} {e x : Int} :
    x ∈ hourUnion hs [e] ↔ x ∈ hs ∨ x = e := by
  unfold hourUnion
  by_cases he : e ∈ hs
  · simp only [List.filter_cons, List.filter_nil]
    rw [if_neg (by simp [he])]
    simp only [List.append_nil]
    constructor
    · exact Or.inl
    · rintro (h | rfl)
      · exact h
      · exact he
  · simp only [List.filter_cons, List.filter_nil]
    rw [if_pos (by simp [he])]
    simp [List.mem_append]

theorem nodup_hourUnion {hs : List Int} {e : Int} (h : hs.Nodup) :
    (hourUnion hs [e]).Nodup := by
  unfold hourUnion
  by_cases he : e ∈ hs
  · simp only [List.filter_cons, List.filter_nil]
    rw [if_neg (by simp [he])]
    simpa using h
  · simp only [List.filter_cons, List.filter_nil]
    rw [if_pos (by simp [he])]
    simp [List.nodup_append, h, he]

theorem nodup_two_values_length {l : List Int} {a b : Int} (hnd : l.Nodup)
    (hab : ∀ x ∈ l, x = a ∨ x = b) : l.length ≤ 2 := by
  match l, hnd, hab with
  | [], _, _ => simp
  | [x], _, _ => simp
  | x :: y :: t, hnd, hab =>
    cases t with
    | nil => simp
    | cons z t' =>
      exfalso
      simp only [List.nodup_cons, List.mem_cons] at hnd
      have hx := hab x (by simp)
      have hy := hab y (by simp)
      have hz := hab z (by simp)
      have hxy : ¬x = y := fun h => hnd.1 (Or.inl h)
      have hxz : ¬x = z := fun h => hnd.1 (Or.inr (Or.inl h))
      have hyz : ¬y = z := fun h => hnd.2.1 (Or.inl h)
      rcases hx with rfl | rfl <;> rcases hy with hy' | hy' <;> rcases hz with hz' | hz' <;>
        simp_all

theorem mem_bumpG {β : Type} (add : β → β → β) (m : List (String × β)) (k : String) (d : β)
    (p : String × β) (hp : p ∈ bumpG add m k d) :
    p ∈ m ∨ p = (k, d) ∨ ∃ v, (k, v) ∈ m ∧ p = (k, add v d) := by
  induction m with
  | nil =>
    simp only [bumpG, List.mem_singleton] at hp
    exact Or.inr (Or.inl hp)
  | cons q rest ih =>
    obtain ⟨k', v⟩ := q
    by_cases hk : k = k'
    · subst hk
      simp only [bumpG, if_pos rfl] at hp
      rcases List.mem_cons.1 hp with rfl | h
      · exact Or.inr (Or.inr ⟨v, List.mem_cons_self _ _, rfl⟩)
      · exact Or.inl (List.mem_cons_of_mem _ h)
    · simp only [bumpG, if_neg hk] at hp
      rcases List.mem_cons.1 hp with rfl | h
      · exact Or.inl (List.mem_cons_self _ _)
      · rcases ih h with h' | h' | ⟨v', hv', rfl⟩
        · exact Or.inl (List.mem_cons_of_mem _ h')
        · exact Or.inr (Or.inl h')
        · exact Or.inr (Or.inr ⟨v', List.mem_cons_of_mem _ hv', rfl⟩)

theorem d2_fold_values (now a b : Int) (l : List Signal)
    (h : ∀ s ∈ l, ∀ hs, d2contribP now s = some hs → ∃ e, hs = [e] ∧ (e = a ∨ e = b)) :
    ∀ m, (∀ p ∈ m, p.2.Nodup ∧ ∀ x ∈ p.2, x = a ∨ x = b) →
      ∀ p ∈ l.foldl (tallyStep hourUnion Signal.village (d2contribP now)) m,
        p.2.Nodup ∧ ∀ x ∈ p.2, x = a ∨ x = b := by
  induction l with
  | nil =>
    intro m hm p hp
    exact hm p hp
  | cons s t ih =>
    intro m hm p hp
    rw [List.foldl_cons] at hp
    refine ih (fun s' hs' => h s' (List.mem_cons_of_mem _ hs')) _ ?_ p hp
    intro q hq
    unfold tallyStep at hq
    cases hc : d2contribP now s with
    | none =>
      rw [hc] at hq
      exact hm q hq
    | some hs =>
      rw [hc] at hq
      obtain ⟨e, rfl, he⟩ := h s (List.mem_cons_self _ _) hs hc
      rcases mem_bumpG hourUnion m s.village [e] q hq with h' | h' | ⟨v, hv, rfl⟩
      · exact hm q h'
      · subst h'
        refine ⟨by simp, ?_⟩
        intro x hx
        rw [List.mem_singleton] at hx
        subst hx
        exact he
      · have hmv := hm (s.village, v) hv
        refine ⟨nodup_hourUnion hmv.1, ?_⟩
        intro x hx
        rcases mem_hourUnion.1 hx with h'' | rfl
        · exact hmv.2 x h''
        · exact he

/-- Rule D2 emits nothing when every in-window hour-of-day value lies in a
two-element set: the per-village distinct-hour count can never reach 4. -/
theorem rule_D2P_nil_of_two_hours (now a b : Int) (sigs : List Signal)
    (h : ∀ s ∈ sigs, ∀ hs, d2contribP now s = some hs → ∃ e, hs = [e] ∧ (e = a ∨ e = b)) :
    rule_D2P now sigs = [] := by
  unfold rule_D2P emitAlerts
  rw [List.filterMap_eq_nil_iff]
  intro p hp
  have hv := d2_fold_values now a b sigs h [] (by simp) p hp
  have hlen : p.2.length ≤ 2 := nodup_two_values_length hv.1 hv.2
  rw [if_neg]
  simp only [decide_eq_true_eq]
  omega

/-! Per-signal contribution values for a medium-severity, symptomless signal. -/

theorem a1contrib_medium (now : Int) (v : String) (sy : List String) (ts : String) :
    a1contribP now ⟨v, "medium", sy, ts⟩ = none := rfl

theorem a2contrib_medium {now : Int} {ts : String} (v : String) (sy : List String)
    (hw : withinP now ts 24 = true) : a2contribP now ⟨v, "medium", sy, ts⟩ = some (0, 1) := by
  simp [a2contribP, hw]

theorem a3contrib_medium {now : Int} {ts : String} (v : String) (sy : List String)
    (hw : withinP now ts 48 = true) : a3contribP now ⟨v, "medium", sy, ts⟩ = some 1 := by
  simp [a3contribP, hw]

theorem volContrib_within {hours now : Int} {ts : String} (v sev : String) (sy : List String)
    (hw : withinP now ts hours = true) :
    volContribP hours now ⟨v, sev, sy, ts⟩ = some 1 := by
  simp [volContribP, hw]

theorem c2contrib_nosymp (now : Int) (v sev ts : String) :
    c2contribP now ⟨v, sev, [], ts⟩ = none := by
  simp [c2contribP]

theorem c3contrib_nosymp (now : Int) (v sev ts : String) :
    c3contribP now ⟨v, sev, [], ts⟩ = none := by
  simp [c3contribP]

theorem d1contrib_curr {now t : Int} {ts : String} (v sev : String) (sy : List String)
    (hp : parse_time ts = some t) (hin : now - 12 ≤ t) :
    d1contribP now ⟨v, sev, sy, ts⟩ = some (0, 1) := by
  unfold d1contribP
  rw [hp]
  show (if now - 12 ≤ t then some ((0 : Nat), (1 : Nat))
    else if now - 24 ≤ t ∧ t < now - 12 then some (1, 0) else none) = some (0, 1)
  rw [if_pos hin]

theorem d2contrib_within {now t : Int} {ts : String} (v sev : String) (sy : List String)
    (hp : parse_time ts = some t) (hin : now - 24 ≤ t) :
    d2contribP now ⟨v, sev, sy, ts⟩ = some [t % 24] := by
  unfold d2contribP
  rw [hp]
  show (if now - 24 ≤ t then some [t % 24] else none) = some [t % 24]
  rw [if_pos hin]

theorem d3contrib_medium {now : Int} {ts : String} (v : String) (sy : List String)
    (hw : withinP now ts 72 = true) : d3contribP now ⟨v, "medium", sy, ts⟩ = some 1 := by
  simp [d3contribP, hw]

theorem e1contrib_medium {now : Int} {ts : String} (v : String) (sy : List String)
    (hw : withinP now ts 24 = true) : e1contribP now ⟨v, "medium", sy, ts⟩ = some 2 := by
  simp only [e1contribP]
  rw [if_pos hw, show weightOf "medium" = 2 from rfl]

theorem e2contrib_medium {now t : Int} {ts : String} (v : String) (sy : List String)
    (hp : parse_time ts = some t) (hin : now - 24 ≤ t) :
    e2contribP now ⟨v, "medium", sy, ts⟩ = some (0, 2) := by
  unfold e2contribP
  rw [hp]
  show (if now - 24 ≤ t then some ((0 : Nat), weightOf "medium")
    else if now - 48 ≤ t ∧ t < now - 24 then some (weightOf "medium", 0) else none) = some (0, 2)
  rw [if_pos hin, show weightOf "medium" = 2 from rfl]

/-! ## Claim C3 -/

/-- Five medium-severity symptomless reports from "Lakeview", all within the
last hour before the reference instant 1000. -/
def lakeviewSignals : List Signal :=
  [⟨"Lakeview", "medium", [], "1000"⟩, ⟨"Lakeview", "medium", [], "1000"⟩,
   ⟨"Lakeview", "medium", [], "999"⟩, ⟨"Lakeview", "medium", [], "1000"⟩,
   ⟨"Lakeview", "medium", [], "999"⟩]

/-- The five escalated alerts the engine actually returns on
`lakeviewSignals`. -/
def lakeviewEscalated : List Alert :=
  [⟨"A3_REPEATED_MEDIUM", "HIGH", "Lakeview",
    "5 medium severity reports in 48h (multiple rules triggered)"⟩,
   ⟨"B1_VOLUME_24H", "HIGH", "Lakeview", "5 reports in 24h (multiple rules triggered)"⟩,
   ⟨"B2_VOLUME_48H", "HIGH", "Lakeview", "5 reports in 48h (multiple rules triggered)"⟩,
   ⟨"D1_RISING_TREND", "HIGH", "Lakeview", "Rising report trend (multiple rules triggered)"⟩,
   ⟨"E1_WEIGHTED_SCORE", "HIGH", "Lakeview",
    "Severity score 10 in 24h (multiple rules triggered)"⟩]

/-- C3 counterexample: on five medium Lakeview reports within the last hour
the engine also fires B2 (5 ≥ 5 in 48h), D1 (curr = 5 > prev = 0, ≥ 3) and E1
(score 5·2 = 10 ≥ 10); the final output has five alerts, not the claimed two
(in either order). -/
theorem C3_counterexample :
    run_all_rules 1000 lakeviewSignals = .ok lakeviewEscalated ∧
    lakeviewEscalated.length = 5 ∧
    run_all_rules 1000 lakeviewSignals ≠
      .ok [⟨"A3_REPEATED_MEDIUM", "HIGH", "Lakeview",
            "5 medium severity reports in 48h (multiple rules triggered)"⟩,
           ⟨"B1_VOLUME_24H", "HIGH", "Lakeview", "5 reports in 24h (multiple rules triggered)"⟩] ∧
    run_all_rules 1000 lakeviewSignals ≠
      .ok [⟨"B1_VOLUME_24H", "HIGH", "Lakeview", "5 reports in 24h (multiple rules triggered)"⟩,
           ⟨"A3_REPEATED_MEDIUM", "HIGH", "Lakeview",
            "5 medium severity reports in 48h (multiple rules triggered)"⟩] := by
  refine ⟨by decide, by decide, by decide, by decide⟩

/-- C3 (amended): for an input of exactly 5 signals, all with village
"Lakeview", severity "medium", empty symptom list, and timestamps within the
last hour before the reference instant, the candidate alerts are exactly A3,
B1, B2, D1 and E1 for "Lakeview" (in evaluation order), and the final output
of `run_all_rules` is exactly these five alerts, escalated to level "HIGH"
with the corroboration suffix. -/
theorem C3_amended_scenario (now : Int) (ts₁ ts₂ ts₃ ts₄ ts₅ : String)
    (t₁ t₂ t₃ t₄ t₅ : Int)
    (hp₁ : parse_time ts₁ = some t₁) (hb₁ : now - 1 ≤ t₁ ∧ t₁ ≤ now)
    (hp₂ : parse_time ts₂ = some t₂) (hb₂ : now - 1 ≤ t₂ ∧ t₂ ≤ now)
    (hp₃ : parse_time ts₃ = some t₃) (hb₃ : now - 1 ≤ t₃ ∧ t₃ ≤ now)
    (hp₄ : parse_time ts₄ = some t₄) (hb₄ : now - 1 ≤ t₄ ∧ t₄ ≤ now)
    (hp₅ : parse_time ts₅ = some t₅) (hb₅ : now - 1 ≤ t₅ ∧ t₅ ≤ now) :
    candidatesM now [⟨"Lakeview", "medium", [], ts₁⟩, ⟨"Lakeview", "medium", [], ts₂⟩,
        ⟨"Lakeview", "medium", [], ts₃⟩, ⟨"Lakeview", "medium", [], ts₄⟩,
        ⟨"Lakeview", "medium", [], ts₅⟩] =
      .ok [⟨"A3_REPEATED_MEDIUM", "MEDIUM", "Lakeview", "5 medium severity reports in 48h"⟩,
           ⟨"B1_VOLUME_24H", "MEDIUM", "Lakeview", "5 reports in 24h"⟩,
           ⟨"B2_VOLUME_48H", "HIGH", "Lakeview", "5 reports in 48h"⟩,
           ⟨"D1_RISING_TREND", "MEDIUM", "Lakeview", "Rising report trend"⟩,
           ⟨"E1_WEIGHTED_SCORE", "HIGH", "Lakeview", "Severity score 10 in 24h"⟩] ∧
    run_all_rules now [⟨"Lakeview", "medium", [], ts₁⟩, ⟨"Lakeview", "medium", [], ts₂⟩,
        ⟨"Lakeview", "medium", [], ts₃⟩, ⟨"Lakeview", "medium", [], ts₄⟩,
        ⟨"Lakeview", "medium", [], ts₅⟩] =
      .ok [⟨"A3_REPEATED_MEDIUM", "HIGH", "Lakeview",
            "5 medium severity reports in 48h (multiple rules triggered)"⟩,
           ⟨"B1_VOLUME_24H", "HIGH", "Lakeview", "5 reports in 24h (multiple rules triggered)"⟩,
           ⟨"B2_VOLUME_48H", "HIGH", "Lakeview", "5 reports in 48h (multiple rules triggered)"⟩,
           ⟨"D1_RISING_TREND", "HIGH", "Lakeview",
            "Rising report trend (multiple rules triggered)"⟩,
           ⟨"E1_WEIGHTED_SCORE", "HIGH", "Lakeview",
            "Severity score 10 in 24h (multiple rules triggered)"⟩] := by
  have hw24₁ : withinP now ts₁ 24 = true := withinP_true_of hp₁ (by omega)
  have hw24₂ : withinP now ts₂ 24 = true := withinP_true_of hp₂ (by omega)
  have hw24₃ : withinP now ts₃ 24 = true := withinP_true_of hp₃ (by omega)
  have hw24₄ : withinP now ts₄ 24 = true := withinP_true_of hp₄ (by omega)
  have hw24₅ : withinP now ts₅ 24 = true := withinP_true_of hp₅ (by omega)
  have hw48₁ : withinP now ts₁ 48 = true := withinP_true_of hp₁ (by omega)
  have hw48₂ : withinP now ts₂ 48 = true := withinP_true_of hp₂ (by omega)
  have hw48₃ : withinP now ts₃ 48 = true := withinP_true_of hp₃ (by omega)
  have hw48₄ : withinP now ts₄ 48 = true := withinP_true_of hp₄ (by omega)
  have hw48₅ : withinP now ts₅ 48 = true := withinP_true_of hp₅ (by omega)
  have hw72₁ : withinP now ts₁ 72 = true := withinP_true_of hp₁ (by omega)
  have hw72₂ : withinP now ts₂ 72 = true := withinP_true_of hp₂ (by omega)
  have hw72₃ : withinP now ts₃ 72 = true := withinP_true_of hp₃ (by omega)
  have hw72₄ : withinP now ts₄ 72 = true := withinP_true_of hp₄ (by omega)
  have hw72₅ : withinP now ts₅ 72 = true := withinP_true_of hp₅ (by omega)
  have hA1 : rule_A1P now [⟨"Lakeview", "medium", [], ts₁⟩, ⟨"Lakeview", "medium", [], ts₂⟩,
      ⟨"Lakeview", "medium", [], ts₃⟩, ⟨"Lakeview", "medium", [], ts₄⟩,
      ⟨"Lakeview", "medium", [], ts₅⟩] = [] := by
    simp only [rule_A1P, tallyG, List.foldl_cons, List.foldl_nil, tallyStep, a1contrib_medium]
    decide
  have hA2 : rule_A2P now [⟨"Lakeview", "medium", [], ts₁⟩, ⟨"Lakeview", "medium", [], ts₂⟩,
      ⟨"Lakeview", "medium", [], ts₃⟩, ⟨"Lakeview", "medium", [], ts₄⟩,
      ⟨"Lakeview", "medium", [], ts₅⟩] = [] := by
    simp only [rule_A2P, tallyG, List.foldl_cons, List.foldl_nil, tallyStep,
      a2contrib_medium _ _ hw24₁, a2contrib_medium _ _ hw24₂, a2contrib_medium _ _ hw24₃,
      a2contrib_medium _ _ hw24₄, a2contrib_medium _ _ hw24₅]
    decide
  have hA3 : rule_A3P now [⟨"Lakeview", "medium", [], ts₁⟩, ⟨"Lakeview", "medium", [], ts₂⟩,
      ⟨"Lakeview", "medium", [], ts₃⟩, ⟨"Lakeview", "medium", [], ts₄⟩,
      ⟨"Lakeview", "medium", [], ts₅⟩] =
      [⟨"A3_REPEATED_MEDIUM", "MEDIUM", "Lakeview", "5 medium severity reports in 48h"⟩] := by
    simp only [rule_A3P, tallyG, List.foldl_cons, List.foldl_nil, tallyStep,
      a3contrib_medium _ _ hw48₁, a3contrib_medium _ _ hw48₂, a3contrib_medium _ _ hw48₃,
      a3contrib_medium _ _ hw48₄, a3contrib_medium _ _ hw48₅]
    decide
  have hB1 : rule_B1P now [⟨"Lakeview", "medium", [], ts₁⟩, ⟨"Lakeview", "medium", [], ts₂⟩,
      ⟨"Lakeview", "medium", [], ts₃⟩, ⟨"Lakeview", "medium", [], ts₄⟩,
      ⟨"Lakeview", "medium", [], ts₅⟩] =
      [⟨"B1_VOLUME_24H", "MEDIUM", "Lakeview", "5 reports in 24h"⟩] := by
    simp only [rule_B1P, tallyG, List.foldl_cons, List.foldl_nil, tallyStep,
      volContrib_within _ _ _ hw24₁, volContrib_within _ _ _ hw24₂,
      volContrib_within _ _ _ hw24₃, volContrib_within _ _ _ hw24₄,
      volContrib_within _ _ _ hw24₅]
    decide
  have hB2 : rule_B2P now [⟨"Lakeview", "medium", [], ts₁⟩, ⟨"Lakeview", "medium", [], ts₂⟩,
      ⟨"Lakeview", "medium", [], ts₃⟩, ⟨"Lakeview", "medium", [], ts₄⟩,
      ⟨"Lakeview", "medium", [], ts₅⟩] =
      [⟨"B2_VOLUME_48H", "HIGH", "Lakeview", "5 reports in 48h"⟩] := by
    simp only [rule_B2P, tallyG, List.foldl_cons, List.foldl_nil, tallyStep,
      volContrib_within _ _ _ hw48₁, volContrib_within _ _ _ hw48₂,
      volContrib_within _ _ _ hw48₃, volContrib_within _ _ _ hw48₄,
      volContrib_within _ _ _ hw48₅]
    decide
  have hB3 : rule_B3P now [⟨"Lakeview", "medium", [], ts₁⟩, ⟨"Lakeview", "medium", [], ts₂⟩,
      ⟨"Lakeview", "medium", [], ts₃⟩, ⟨"Lakeview", "medium", [], ts₄⟩,
      ⟨"Lakeview", "medium", [], ts₅⟩] = [] := by
    simp only [rule_B3P, tallyG, List.foldl_cons, List.foldl_nil, tallyStep,
      volContrib_within _ _ _ hw48₁, volContrib_within _ _ _ hw48₂,
      volContrib_within _ _ _ hw48₃, volContrib_within _ _ _ hw48₄,
      volContrib_within _ _ _ hw48₅]
    decide
  have hC1 : rule_C1_symptom_diversity [⟨"Lakeview", "medium", [], ts₁⟩,
      ⟨"Lakeview", "medium", [], ts₂⟩, ⟨"Lakeview", "medium", [], ts₃⟩,
      ⟨"Lakeview", "medium", [], ts₄⟩, ⟨"Lakeview", "medium", [], ts₅⟩] = [] := rfl
  have hC2 : rule_C2P now [⟨"Lakeview", "medium", [], ts₁⟩, ⟨"Lakeview", "medium", [], ts₂⟩,
      ⟨"Lakeview", "medium", [], ts₃⟩, ⟨"Lakeview", "medium", [], ts₄⟩,
      ⟨"Lakeview", "medium", [], ts₅⟩] = [] := by
    simp only [rule_C2P, tallyG, List.foldl_cons, List.foldl_nil, tallyStep, c2contrib_nosymp]
    decide
  have hC3 : rule_C3P now [⟨"Lakeview", "medium", [], ts₁⟩, ⟨"Lakeview", "medium", [], ts₂⟩,
      ⟨"Lakeview", "medium", [], ts₃⟩, ⟨"Lakeview", "medium", [], ts₄⟩,
      ⟨"Lakeview", "medium", [], ts₅⟩] = [] := by
    simp only [rule_C3P, tallyG, List.foldl_cons, List.foldl_nil, tallyStep, c3contrib_nosymp]
    decide
  have hD1 : rule_D1P now [⟨"Lakeview", "medium", [], ts₁⟩, ⟨"Lakeview", "medium", [], ts₂⟩,
      ⟨"Lakeview", "medium", [], ts₃⟩, ⟨"Lakeview", "medium", [], ts₄⟩,
      ⟨"Lakeview", "medium", [], ts₅⟩] =
      [⟨"D1_RISING_TREND", "MEDIUM", "Lakeview", "Rising report trend"⟩] := by
    simp only [rule_D1P, tallyG, List.foldl_cons, List.foldl_nil, tallyStep,
      @d1contrib_curr now t₁ ts₁ "Lakeview" "medium" [] hp₁ (by omega), @d1contrib_curr now t₂ ts₂ "Lakeview" "medium" [] hp₂ (by omega),
      @d1contrib_curr now t₃ ts₃ "Lakeview" "medium" [] hp₃ (by omega), @d1contrib_curr now t₄ ts₄ "Lakeview" "medium" [] hp₄ (by omega),
      @d1contrib_curr now t₅ ts₅ "Lakeview" "medium" [] hp₅ (by omega)]
    decide
  have hD2 : rule_D2P now [⟨"Lakeview", "medium", [], ts₁⟩, ⟨"Lakeview", "medium", [], ts₂⟩,
      ⟨"Lakeview", "medium", [], ts₃⟩, ⟨"Lakeview", "medium", [], ts₄⟩,
      ⟨"Lakeview", "medium", [], ts₅⟩] = [] := by
    apply rule_D2P_nil_of_two_hours now ((now - 1) % 24) (now % 24)
    intro s hs hrs hseq
    have hcase : ∀ t : Int, now - 1 ≤ t → t ≤ now → t % 24 = (now - 1) % 24 ∨ t % 24 = now % 24 := by
      intro t h1 h2
      have : t = now - 1 ∨ t = now := by omega
      rcases this with rfl | rfl
      · exact Or.inl rfl
      · exact Or.inr rfl
    simp only [List.mem_cons, List.not_mem_nil, or_false] at hs
    rcases hs with rfl | rfl | rfl | rfl | rfl
    · rw [@d2contrib_within now t₁ ts₁ "Lakeview" "medium" [] hp₁ (by omega)] at hseq
      injection hseq with hseq
      exact ⟨t₁ % 24, hseq.symm, hcase t₁ hb₁.1 hb₁.2⟩
    · rw [@d2contrib_within now t₂ ts₂ "Lakeview" "medium" [] hp₂ (by omega)] at hseq
      injection hseq with hseq
      exact ⟨t₂ % 24, hseq.symm, hcase t₂ hb₂.1 hb₂.2⟩
    · rw [@d2contrib_within now t₃ ts₃ "Lakeview" "medium" [] hp₃ (by omega)] at hseq
      injection hseq with hseq
      exact ⟨t₃ % 24, hseq.symm, hcase t₃ hb₃.1 hb₃.2⟩
    · rw [@d2contrib_within now t₄ ts₄ "Lakeview" "medium" [] hp₄ (by omega)] at hseq
      injection hseq with hseq
      exact ⟨t₄ % 24, hseq.symm, hcase t₄ hb₄.1 hb₄.2⟩
    · rw [@d2contrib_within now t₅ ts₅ "Lakeview" "medium" [] hp₅ (by omega)] at hseq
      injection hseq with hseq
      exact ⟨t₅ % 24, hseq.symm, hcase t₅ hb₅.1 hb₅.2⟩
  have hD3 : rule_D3P now [⟨"Lakeview", "medium", [], ts₁⟩, ⟨"Lakeview", "medium", [], ts₂⟩,
      ⟨"Lakeview", "medium", [], ts₃⟩, ⟨"Lakeview", "medium", [], ts₄⟩,
      ⟨"Lakeview", "medium", [], ts₅⟩] = [] := by
    simp only [rule_D3P, tallyG, List.foldl_cons, List.foldl_nil, tallyStep,
      d3contrib_medium _ _ hw72₁, d3contrib_medium _ _ hw72₂, d3contrib_medium _ _ hw72₃,
      d3contrib_medium _ _ hw72₄, d3contrib_medium _ _ hw72₅]
    decide
  have hE1 : rule_E1P now [⟨"Lakeview", "medium", [], ts₁⟩, ⟨"Lakeview", "medium", [], ts₂⟩,
      ⟨"Lakeview", "medium", [], ts₃⟩, ⟨"Lakeview", "medium", [], ts₄⟩,
      ⟨"Lakeview", "medium", [], ts₅⟩] =
      [⟨"E1_WEIGHTED_SCORE", "HIGH", "Lakeview", "Severity score 10 in 24h"⟩] := by
    simp only [rule_E1P, e1scores, tallyG, List.foldl_cons, List.foldl_nil, tallyStep,
      e1contrib_medium _ _ hw24₁, e1contrib_medium _ _ hw24₂, e1contrib_medium _ _ hw24₃,
      e1contrib_medium _ _ hw24₄, e1contrib_medium _ _ hw24₅]
    decide
  have hE2 : rule_E2P now [⟨"Lakeview", "medium", [], ts₁⟩, ⟨"Lakeview", "medium", [], ts₂⟩,
      ⟨"Lakeview", "medium", [], ts₃⟩, ⟨"Lakeview", "medium", [], ts₄⟩,
      ⟨"Lakeview", "medium", [], ts₅⟩] = [] := by
    simp only [rule_E2P, e2scores, tallyG, List.foldl_cons, List.foldl_nil, tallyStep,
      @e2contrib_medium now t₁ ts₁ "Lakeview" [] hp₁ (by omega), @e2contrib_medium now t₂ ts₂ "Lakeview" [] hp₂ (by omega),
      @e2contrib_medium now t₃ ts₃ "Lakeview" [] hp₃ (by omega), @e2contrib_medium now t₄ ts₄ "Lakeview" [] hp₄ (by omega),
      @e2contrib_medium now t₅ ts₅ "Lakeview" [] hp₅ (by omega)]
    decide
  have hcand : candidatesP now [⟨"Lakeview", "medium", [], ts₁⟩, ⟨"Lakeview", "medium", [], ts₂⟩,
      ⟨"Lakeview", "medium", [], ts₃⟩, ⟨"Lakeview", "medium", [], ts₄⟩,
      ⟨"Lakeview", "medium", [], ts₅⟩] =
      [⟨"A3_REPEATED_MEDIUM", "MEDIUM", "Lakeview", "5 medium severity reports in 48h"⟩,
       ⟨"B1_VOLUME_24H", "MEDIUM", "Lakeview", "5 reports in 24h"⟩,
       ⟨"B2_VOLUME_48H", "HIGH", "Lakeview", "5 reports in 48h"⟩,
       ⟨"D1_RISING_TREND", "MEDIUM", "Lakeview", "Rising report trend"⟩,
       ⟨"E1_WEIGHTED_SCORE", "HIGH", "Lakeview", "Severity score 10 in 24h"⟩] := by
    unfold candidatesP
    rw [hA1, hA2, hA3, hB1, hB2, hB3, hC1, hC2, hC3, hD1, hD2, hD3, hE1, hE2]
    decide
  have hall : allParse [⟨"Lakeview", "medium", [], ts₁⟩, ⟨"Lakeview", "medium", [], ts₂⟩,
      ⟨"Lakeview", "medium", [], ts₃⟩, ⟨"Lakeview", "medium", [], ts₄⟩,
      ⟨"Lakeview", "medium", [], ts₅⟩] = true := by
    simp [allParse, hp₁, hp₂, hp₃, hp₄, hp₅]
  constructor
  · rw [candidatesM_of_allParse hall, hcand]
  · rw [run_all_rules_of_allParse hall]
    unfold run_all_rulesP
    rw [hcand]
    decide

theorem C3_amended_witness :
    candidatesM 1000 [⟨"Lakeview", "medium", [], "1000"⟩, ⟨"Lakeview", "medium", [], "1000"⟩,
        ⟨"Lakeview", "medium", [], "999"⟩, ⟨"Lakeview", "medium", [], "1000"⟩,
        ⟨"Lakeview", "medium", [], "999"⟩] =
      .ok [⟨"A3_REPEATED_MEDIUM", "MEDIUM", "Lakeview", "5 medium severity reports in 48h"⟩,
           ⟨"B1_VOLUME_24H", "MEDIUM", "Lakeview", "5 reports in 24h"⟩,
           ⟨"B2_VOLUME_48H", "HIGH", "Lakeview", "5 reports in 48h"⟩,
           ⟨"D1_RISING_TREND", "MEDIUM", "Lakeview", "Rising report trend"⟩,
           ⟨"E1_WEIGHTED_SCORE", "HIGH", "Lakeview", "Severity score 10 in 24h"⟩] ∧
    run_all_rules 1000 [⟨"Lakeview", "medium", [], "1000"⟩, ⟨"Lakeview", "medium", [], "1000"⟩,
        ⟨"Lakeview", "medium", [], "999"⟩, ⟨"Lakeview", "medium", [], "1000"⟩,
        ⟨"Lakeview", "medium", [], "999"⟩] =
      .ok [⟨"A3_REPEATED_MEDIUM", "HIGH", "Lakeview",
            "5 medium severity reports in 48h (multiple rules triggered)"⟩,
           ⟨"B1_VOLUME_24H", "HIGH", "Lakeview", "5 reports in 24h (multiple rules triggered)"⟩,
           ⟨"B2_VOLUME_48H", "HIGH", "Lakeview", "5 reports in 48h (multiple rules triggered)"⟩,
           ⟨"D1_RISING_TREND", "HIGH", "Lakeview",
            "Rising report trend (multiple rules triggered)"⟩,
           ⟨"E1_WEIGHTED_SCORE", "HIGH", "Lakeview",
            "Severity score 10 in 24h (multiple rules triggered)"⟩] :=
  C3_amended_scenario 1000 "1000" "1000" "999" "1000" "999" 1000 1000 999 1000 999
    (by decide) (by decide) (by decide) (by decide) (by decide) (by decide)
    (by decide) (by decide) (by decide) (by decide)

/-! ## Claim C9 -/

/-- C9 counterexample: two runs whose clocks agree at the first capture
(rule A1's "now") but differ at rule B1's capture produce different final
outputs, so the engine's result is not a function of the signal list and a
single reference instant captured once at the start of the run — the source
re-reads the clock inside every rule. -/
theorem C9_counterexample :
    (fun i => if i = 3 then (2000 : Int) else 1000) 0 = (fun _ => (1000 : Int)) 0 ∧
    run_all_rules_clock (fun i => if i = 3 then (2000 : Int) else 1000) lakeviewSignals ≠
      run_all_rules_clock (fun _ => (1000 : Int)) lakeviewSignals := by
  refine ⟨rfl, by decide⟩

/-- C9 (amended): the source captures "now" independently inside each rule
rather than once per run; whenever every capture returns the same instant the
run equals `run_all_rules` at that instant, so the engine is deterministic
given `(signals, now)`: any two clocks constant at the same instant give
identical final alert sequences. -/
theorem C9_amended_determinism (now : Int) (signals : List Signal) (nows₁ nows₂ : Nat → Int)
    (h₁ : ∀ i, nows₁ i = now) (h₂ : ∀ i, nows₂ i = now) :
    run_all_rules_clock nows₁ signals = run_all_rules_clock nows₂ signals ∧
    run_all_rules_clock nows₁ signals = run_all_rules now signals := by
  have e₁ : nows₁ = fun _ => now := funext h₁
  have e₂ : nows₂ = fun _ => now := funext h₂
  rw [e₁, e₂]
  exact ⟨rfl, rfl⟩

theorem C9_witness :
    run_all_rules_clock (fun _ => (1000 : Int)) lakeviewSignals =
      run_all_rules_clock (fun _ => (1000 : Int)) lakeviewSignals ∧
    run_all_rules_clock (fun _ => (1000 : Int)) lakeviewSignals =
      run_all_rules 1000 lakeviewSignals :=
  C9_amended_determinism 1000 lakeviewSignals _ _ (fun _ => rfl) (fun _ => rfl)

theorem C2_amended_witness :
    (countVillage [c1CandidateAlert, c1CandidateAlert] "V" = 1 →
      ∀ b ∈ [escalatedC1Alert, escalatedC1Alert], b.village ≠ "V") ∧
    (∀ x y, x ∈ [c1CandidateAlert, c1CandidateAlert] →
      y ∈ [c1CandidateAlert, c1CandidateAlert] → x.village = "V" → y.village = "V" →
      x.rule ≠ y.rule → ∀ a ∈ [c1CandidateAlert, c1CandidateAlert], a.village = "V" →
      escalate a ∈ [escalatedC1Alert, escalatedC1Alert]) :=
  C2_amended_escalation 1000 twoSymptomSignals [c1CandidateAlert, c1CandidateAlert]
    [escalatedC1Alert, escalatedC1Alert] (by decide) (by decide) "V"

end BFB
